import Mathlib

/-!
# Verification of the engine-fun virtual dynamometer

Shallow embedding of the simulation core of the `engine-fun` repository.
The repository contains several near-duplicate implementations:

* `ModeFirst` — the "BMEP-Based Engine Simulator, Mode-First Design"
  (first half of `src/script.js`);
* `V41` — "Engine Power Simulator V4.1" (second half of `src/script.js`);
* `V3` — "SIMPLE ENGINE SIMULATOR v3" (`src/unnamed/part_000`);
* `V2` — "Improved Engine Simulator v2" (`src/unnamed/part_001`).

JavaScript numbers are modelled as real numbers (`ℝ`); integer-valued
quantities coming from `parseInt` (rpm values, cylinder counts, valve
counts) are modelled as naturals.  Division by zero is total in `ℝ`
(`x / 0 = 0`) where JavaScript would produce `±Infinity`/`NaN`; every
statement proved below is insensitive to this difference because the
affected subterms are fed through `Math.max(0, Math.min(x, 1))`-style
clamps.  `Math.pow` on a non-negative base is `Real.rpow`.
-/

namespace EngineFun

noncomputable section

/-- The `fuelType` select: `"gasoline" | "diesel" | "methanol"`. -/
inductive FuelType
  | gasoline
  | diesel
  | methanol
deriving DecidableEq, Repr

/-- The `inductionType` select: `"na" | "turbo" | "supercharger"`. -/
inductive InductionType
  | na
  | turbo
  | supercharger
deriving DecidableEq, Repr

/-- The `valvetrainType` select: `"pushrod" | "sohc" | "dohc"`. -/
inductive ValvetrainType
  | pushrod
  | sohc
  | dohc
deriving DecidableEq, Repr

/-- The `engineMode` select of the mode-first variant:
`"gas_na" | "gas_turbo" | "gas_sc" | "diesel_turbo" | "methanol_race"`
(the `default` branches of the mode dispatch coincide with `gas_na`). -/
inductive EngineMode
  | gasNa
  | gasTurbo
  | gasSc
  | dieselTurbo
  | methanolRace
deriving DecidableEq, Repr

/-- `clamp(value, min, max) = Math.min(Math.max(value, min), max)`
from `part_000`/`part_001`. -/
def clamp (value mn mx : ℝ) : ℝ := min (max value mn) mx

/-- `Math.max(0, Math.min(x, 1))` — the unit-interval clamp used by every
`script.js` shape model. -/
def clamp01 (x : ℝ) : ℝ := max 0 (min x 1)

/-- `Math.pow(Math.max(0, Math.min(x, 1)), e)` — the clamped power-law
interpolation used by the `script.js` shape models (`Real.rpow` on the
non-negative clamped base agrees with `Math.pow`). -/
def pow01 (x e : ℝ) : ℝ := clamp01 x ^ e

/-- `hpFromTorque(tqLbFt, rpm) = tqLbFt * rpm / 5252` from `script.js`
(defined identically in both halves). -/
def hpFromTorque (tqLbFt rpm : ℝ) : ℝ := tqLbFt * rpm / 5252

/-- One run of the JS loop `for (let r = start; r <= maxRpm; r += step) arr.push(r)`.
`fuel` bounds the number of iterations: for `step ≥ 1` the loop performs at most
`maxRpm + 1 - start` iterations, so any `fuel ≥ maxRpm + 1 - start` reproduces it
exactly (the JS loop itself does not terminate for `step = 0`). -/
def rpmLoop : ℕ → ℕ → ℕ → ℕ → List ℕ
  | 0, _, _, _ => []
  | fuel + 1, r, maxRpm, step =>
      if r ≤ maxRpm then r :: rpmLoop fuel (r + step) maxRpm step else []

/-- `createRpmRange(redline, step, idle = 1000)` from `script.js` (defined
identically in both halves): `maxRpm = Math.max(redline || 6000, idle + step)`
followed by the push loop.  A falsy `redline` (`0`, `NaN`, `undefined`) is
modelled as `0`. -/
def createRpmRange (redline step idle : ℕ) : List ℕ :=
  let maxRpm := max (if redline = 0 then 6000 else redline) (idle + step)
  rpmLoop (maxRpm + 1) idle maxRpm step

/-- The rpm grid visited by the v3/v2 `simulateEngine` loop
`for (let rpm = rpmStart; rpm <= redlineRpm; rpm += rpmStep)` with
`rpmStart = 1000`. -/
def v3Grid (redlineRpm rpmStep : ℕ) : List ℕ :=
  rpmLoop (redlineRpm + 1) 1000 redlineRpm rpmStep

/-- `litersToCID(liters) = liters * 61.023744` from `script.js` (both halves). -/
def litersToCID (liters : ℝ) : ℝ := liters * 61.023744

/-- `litersFromBoreStroke(boreMm, strokeMm, cylinders)` from `script.js` (defined
identically in both halves).  The JS guard `if (!boreMm || !strokeMm || !cylinders)
return 0` fires on falsy inputs (`0`, `NaN`, missing), modelled as the value `0`. -/
def litersFromBoreStroke (boreMm strokeMm cylinders : ℝ) : ℝ :=
  if boreMm = 0 ∨ strokeMm = 0 ∨ cylinders = 0 then 0
  else
    let boreCm := boreMm / 10
    let strokeCm := strokeMm / 10
    let cylVolCc := Real.pi / 4 * boreCm * boreCm * strokeCm
    let totalCc := cylVolCc * cylinders
    totalCc / 1000

/-- `computeDisplacementL(cylinders, boreMm, strokeMm)` from `part_000`/`part_001`
(identical in both; no falsy-input guard). -/
def computeDisplacementL (cylinders boreMm strokeMm : ℝ) : ℝ :=
  let boreCm := boreMm / 10
  let strokeCm := strokeMm / 10
  let singleCc := Real.pi / 4 * boreCm * boreCm * strokeCm
  let totalCc := singleCc * cylinders
  totalCc / 1000

/-- Pair returned by the two `script.js` compression/boost resolvers. -/
structure BoostComp where
  effBoostPsi : ℝ
  compFactor : ℝ

/-- JS truthiness of a possibly-missing `parseInt` result (`NaN`/missing is
modelled as `none`, and `!x` is true exactly for `none` and `some 0`). -/
def truthyN (v : Option ℕ) : Bool := v.getD 0 != 0

/-- JS truthiness of a possibly-missing `parseFloat` result. -/
def truthyQ (v : Option ℚ) : Bool := v.getD 0 != 0

namespace ModeFirst

/-- `getModeConfig(engineMode)` from the mode-first `script.js`:
fuel type and reference BMEP per engine mode (the `default` branch
coincides with `gas_na`). -/
def getModeConfig : EngineMode → FuelType × ℝ
  | .gasNa => (.gasoline, 13)
  | .gasTurbo => (.gasoline, 20)
  | .gasSc => (.gasoline, 19)
  | .dieselTurbo => (.diesel, 24)
  | .methanolRace => (.methanol, 18)

/-- `getEffectiveBoostAndCompFactor(fuelType, inductionType, compRatio, boostPsi)`
from the mode-first `script.js` (lines 218-254). -/
def getEffectiveBoostAndCompFactor (fuelType : FuelType) (inductionType : InductionType)
    (compRatio boostPsi : ℝ) : BoostComp :=
  match fuelType with
  | .gasoline =>
      if inductionType = .na then
        let ideal : ℝ := 10.8
        let delta := compRatio - ideal
        let compFactor := 1 - 0.01 * delta * delta
        { effBoostPsi := 0, compFactor := max 0.9 (min compFactor 1.05) }
      else
        let idealCr : ℝ := 9.5
        let deltaCr := compRatio - idealCr
        let compFactor := 1 - 0.015 * |deltaCr|
        -- crude knock-limited boost
        let safeBoostPsi := max 0 (22 - 5 * max 0 (compRatio - 9.5))
        { effBoostPsi := min boostPsi safeBoostPsi,
          compFactor := max 0.85 (min compFactor 1.02) }
  | .diesel =>
      let ideal : ℝ := 17
      let delta := compRatio - ideal
      { effBoostPsi := boostPsi,
        compFactor := max 0.9 (min (1 - 0.01 * |delta|) 1.05) }
  | .methanol =>
      let ideal : ℝ := 13.5
      let delta := compRatio - ideal
      { effBoostPsi := boostPsi,
        compFactor := max 0.9 (min (1 + 0.01 * delta) 1.1) }

end ModeFirst

namespace V41

/-- `getCompressionBoostScaling(fuelType, inductionType, compRatio, boostPsi)`
from the V4.1 half of `script.js` (lines 1242-1294).  The final statement
`compFactor = Math.max(0.7, Math.min(compFactor, 1.15))` is the outer clamp. -/
def getCompressionBoostScaling (fuelType : FuelType) (inductionType : InductionType)
    (compRatio boostPsi : ℝ) : BoostComp :=
  let raw : ℝ × ℝ :=
    match fuelType with
    | .gasoline =>
        if inductionType = .na then
          let delta := compRatio - 10.8
          (1 + 0.02 * delta - 0.005 * delta * delta, boostPsi)
        else
          let delta := compRatio - 9.5
          let compFactor := 1 - 0.03 * max delta 0 + 0.01 * min delta 0
          let effBoost :=
            if 10.5 < compRatio ∧ 0 < boostPsi then
              max 0 (boostPsi - (compRatio - 10.5) * 3)
            else boostPsi
          (compFactor, effBoost)
    | .diesel =>
        let delta := compRatio - 17
        let compFactor := 1 - 0.01 * |delta|
        let compFactor :=
          if compRatio < 15 ∨ 19 < compRatio then compFactor * 0.95 else compFactor
        (compFactor, boostPsi)
    | .methanol =>
        let delta := compRatio - 13.5
        let compFactor := 1 + 0.015 * delta
        let effBoost := if inductionType = .na then boostPsi else boostPsi * 1.1
        (compFactor, effBoost)
  { effBoostPsi := raw.2, compFactor := max 0.7 (min raw.1 1.15) }

end V41

namespace V3

/-- Fuel property record returned by `getFuelProps` in `part_000`. -/
structure FuelProps where
  densityLbPerGal : ℝ
  bsfc : ℝ
  knockLimit : ℝ
  baselineCR : ℝ

/-- `getFuelProps(fuelType, inductionType)` from `part_000` (lines 39-73). -/
def getFuelProps (fuelType : FuelType) (inductionType : InductionType) : FuelProps :=
  match fuelType with
  | .diesel =>
      { densityLbPerGal := 7.1, bsfc := if inductionType = .na then 0.38 else 0.45,
        knockLimit := 32, baselineCR := 17 }
  | .methanol =>
      { densityLbPerGal := 6.6, bsfc := if inductionType = .na then 0.75 else 0.9,
        knockLimit := 28, baselineCR := 12 }
  | .gasoline =>
      { densityLbPerGal := 6.2, bsfc := if inductionType = .na then 0.45 else 0.6,
        knockLimit := 18, baselineCR := 10 }

/-- `getFuelShapeFactor(fuelType, rpm, redlineRpm)` from `part_000`. -/
def getFuelShapeFactor (fuelType : FuelType) (rpm redlineRpm : ℝ) : ℝ :=
  let t := clamp (rpm / redlineRpm) 0 1
  match fuelType with
  | .diesel => clamp (1.15 - 0.3 * t) 0.8 1.15
  | .methanol => clamp (0.95 + 0.15 * t) 0.95 1.12
  | .gasoline => 1

/-- `getInductionShapeFactor(inductionType, rpm, redlineRpm)` from `part_000`. -/
def getInductionShapeFactor (inductionType : InductionType) (rpm redlineRpm : ℝ) : ℝ :=
  let t := clamp (rpm / redlineRpm) 0 1
  match inductionType with
  | .turbo =>
      let spoolStart : ℝ := 0.35
      let spoolFull : ℝ := 0.7
      if t ≤ spoolStart then 0.65
      else if spoolFull ≤ t then 1.1
      else
        let u := (t - spoolStart) / (spoolFull - spoolStart)
        0.65 + (1.1 - 0.65) * u
  | .supercharger => clamp (1.12 - 0.1 * t) 1.0 1.12
  | .na => 1

/-- `getValvetrainShapeFactor(valvetrainType, valvesPerCyl, rpm, redlineRpm)`
from `part_000`. -/
def getValvetrainShapeFactor (valvetrainType : ValvetrainType) (valvesPerCyl : ℕ)
    (rpm redlineRpm : ℝ) : ℝ :=
  let t := clamp (rpm / redlineRpm) 0 1
  let lowBase : ℝ :=
    match valvetrainType with
    | .pushrod => 1.08
    | .sohc => 1.02
    | .dohc => 0.98
  let highBase : ℝ :=
    match valvetrainType with
    | .pushrod => 0.88
    | .sohc => 1.0
    | .dohc => 1.10
  let valveHighBonus : ℝ :=
    if 4 ≤ valvesPerCyl then 0.05 else if valvesPerCyl = 3 then 0.02 else 0
  let low := lowBase
  let high := highBase + valveHighBonus
  clamp (low + (high - low) * t) 0.8 1.2

/-- `getCompressionFactor(compressionRatio, baselineCR)` from `part_000`
(lines 161-166). -/
def getCompressionFactor (compressionRatio baselineCR : ℝ) : ℝ :=
  let delta := compressionRatio - baselineCR
  let factor := 1 + 0.02 * delta
  clamp factor 0.85 1.15

/-- `getKnockFactor(compressionRatio, pressureRatio, knockLimit)` from
`part_000` (lines 173-179).  `Math.pow(ratio, 0.9)` is `Real.rpow`. -/
def getKnockFactor (compressionRatio pressureRatio knockLimit : ℝ) : ℝ :=
  let crpr := compressionRatio * pressureRatio
  if crpr ≤ knockLimit then 1
  else
    let ratio := knockLimit / crpr
    clamp (ratio ^ (0.9 : ℝ)) 0.5 1

/-- `meanPistonSpeedMps(strokeM, rpm)` from `part_000`. -/
def meanPistonSpeedMps (strokeM rpm : ℝ) : ℝ := 2 * strokeM * rpm / 60

/-- `getPistonSpeedFactor(meanPistonSpeed, limit)` from `part_000`
(lines 192-197). -/
def getPistonSpeedFactor (meanPistonSpeed limit : ℝ) : ℝ :=
  if meanPistonSpeed ≤ limit then 1
  else
    let over := meanPistonSpeed - limit
    clamp (1 - 0.04 * over) 0.4 1

/-- `getSizeEfficiency(displacementL, sizePenaltyPerL)` from `part_000`. -/
def getSizeEfficiency (displacementL sizePenaltyPerL : ℝ) : ℝ :=
  let extraLiters := max 0 (displacementL - 2)
  let factor := 1 - sizePenaltyPerL / 100 * extraLiters
  clamp factor 0.65 1.05

/-- `getFrictionHp(displacementL, rpmK, fuelType)` from `part_000`. -/
def getFrictionHp (displacementL rpmK : ℝ) (fuelType : FuelType) : ℝ :=
  let baseFricPerL : ℝ := 2.5
  let slopeFricPerL : ℝ := 1.4
  let quadFricPerL : ℝ := 0.25
  let frictionHp :=
    displacementL * (baseFricPerL + slopeFricPerL * rpmK) +
      quadFricPerL * displacementL * rpmK * rpmK
  if fuelType = .diesel then frictionHp * 1.1 else frictionHp

/-- `getSuperchargerParasiticHp(displacementL, rpmK, boostPsi)` from `part_000`. -/
def getSuperchargerParasiticHp (displacementL rpmK boostPsi : ℝ) : ℝ :=
  if boostPsi ≤ 0 then 0
  else
    let boostFactor := boostPsi / 10
    boostFactor * displacementL * rpmK * 2.0

/-- The parameter record handed to v3 `simulateEngine` by its form handler.
`parseInt` results (`redlineRpm`, `rpmStep`, `valvesPerCyl`) are naturals;
the remaining numeric fields are reals. -/
structure V3Params where
  cylinders : ℝ
  boreMm : ℝ
  strokeMm : ℝ
  redlineRpm : ℕ
  rpmStep : ℕ
  vePeakPercent : ℝ
  sizePenaltyPerL : ℝ
  pistonSpeedLimit : ℝ
  fuelType : FuelType
  inductionType : InductionType
  boostPsiInput : ℝ
  compressionRatio : ℝ
  valvesPerCyl : ℕ
  valvetrainType : ValvetrainType

/-- One output point pushed by v3 `simulateEngine` (lines 376-386). -/
structure V3Point where
  rpm : ℕ
  hp : ℝ
  torque : ℝ
  effectiveVE : ℝ
  meanPistonSpeed : ℝ
  bmepPsi : ℝ
  cfm : ℝ
  fuelLbPerHr : ℝ
  fuelGalPerHr : ℝ

/-- The v3 `simulateEngine` return value. -/
structure V3Result where
  points : List V3Point
  displacementL : ℝ
  densityLbPerGal : ℝ

/-- The body of the per-rpm loop of v3 `simulateEngine` (lines 295-387),
together with the run-level quantities it reads (displacement, boost,
pressure ratio, fuel props, VE-curve shape from the bore/stroke ratio).
These are loop-invariant in the source; recomputing them per point is
sound because they are pure. -/
def v3Point (p : V3Params) (rpm : ℕ) : V3Point :=
  let displacementL := computeDisplacementL p.cylinders p.boreMm p.strokeMm
  let displacementCi := displacementL * 61.024
  let boostPsi := if p.inductionType = .na then 0 else max 0 p.boostPsiInput
  let pressureRatio := 1 + boostPsi / 14.7
  let props := getFuelProps p.fuelType p.inductionType
  let sizeEff := getSizeEfficiency displacementL p.sizePenaltyPerL
  let veMax := p.vePeakPercent / 100
  let bsr := p.boreMm / p.strokeMm
  let bsrClamp := clamp bsr 0.7 1.6
  let bsrT := (bsrClamp - 0.7) / (1.6 - 0.7)
  let vePeakRpm := (p.redlineRpm : ℝ) * (0.5 + 0.4 * bsrT)
  let veWidth := (p.redlineRpm : ℝ) * (0.35 - 0.17 * bsrT)
  let strokeM := p.strokeMm / 1000
  let C : ℝ := 13.5
  let rpmK := (rpm : ℝ) / 1000
  let veRpmRaw := veMax * Real.exp (-0.5 * (((rpm : ℝ) - vePeakRpm) / veWidth) ^ 2)
  let mps := meanPistonSpeedMps strokeM (rpm : ℝ)
  let pistonFactor := getPistonSpeedFactor mps p.pistonSpeedLimit
  let fuelShape := getFuelShapeFactor p.fuelType (rpm : ℝ) (p.redlineRpm : ℝ)
  let inductionShape := getInductionShapeFactor p.inductionType (rpm : ℝ) (p.redlineRpm : ℝ)
  let valvetrainShape :=
    getValvetrainShapeFactor p.valvetrainType p.valvesPerCyl (rpm : ℝ) (p.redlineRpm : ℝ)
  let compressionFactor := getCompressionFactor p.compressionRatio props.baselineCR
  let knockFactor := getKnockFactor p.compressionRatio pressureRatio props.knockLimit
  let effectiveVE :=
    clamp
      (veRpmRaw * sizeEff * pistonFactor * fuelShape * inductionShape * valvetrainShape *
          compressionFactor * knockFactor)
      0 1.25
  let grossHp := C * displacementL * pressureRatio * effectiveVE * rpmK
  let frictionHp := getFrictionHp displacementL rpmK p.fuelType
  let parasiticHp :=
    if p.inductionType = .supercharger then
      getSuperchargerParasiticHp displacementL rpmK boostPsi
    else 0
  let maxLoss := grossHp * 0.85
  let totalLoss := min (frictionHp + parasiticHp) maxLoss
  let netHp0 := max (grossHp - totalLoss) 0
  let lowRpmFloor := displacementL * 1.2 * rpmK ^ (0.7 : ℝ)
  let netHp := if netHp0 < lowRpmFloor then lowRpmFloor else netHp0
  let torque := if (0 : ℝ) < (rpm : ℝ) then netHp * 5252 / (rpm : ℝ) else 0
  let bmepPsi := if (0 : ℝ) < displacementL then 150.8 * torque / displacementL else 0
  let cfm := displacementCi * (rpm : ℝ) * effectiveVE * pressureRatio / 3456
  let fuelLbPerHr := netHp * props.bsfc
  let fuelGalPerHr :=
    if (0 : ℝ) < props.densityLbPerGal then fuelLbPerHr / props.densityLbPerGal else 0
  { rpm := rpm, hp := netHp, torque := torque, effectiveVE := effectiveVE,
    meanPistonSpeed := mps, bmepPsi := bmepPsi, cfm := cfm,
    fuelLbPerHr := fuelLbPerHr, fuelGalPerHr := fuelGalPerHr }

/-- `simulateEngine(params)` from `part_000` (lines 244-394): one point per rpm
of the grid `1000, 1000 + step, …, ≤ redline`. -/
def simulateEngine (p : V3Params) : V3Result :=
  { points := (v3Grid p.redlineRpm p.rpmStep).map (v3Point p),
    displacementL := computeDisplacementL p.cylinders p.boreMm p.strokeMm,
    densityLbPerGal := (getFuelProps p.fuelType p.inductionType).densityLbPerGal }

end V3

namespace ModeFirst

/-- `bmepPsiFromTorque(torqueLbFt, displacementL)` from the mode-first
`script.js` (the guard `!displacementL || displacementL <= 0` is `≤ 0`). -/
def bmepPsiFromTorque (torqueLbFt displacementL : ℝ) : ℝ :=
  if displacementL ≤ 0 then 0 else 150.8 * torqueLbFt / displacementL

/-- `torqueFromBmepBar(bmepBar, displacementL)` from the mode-first `script.js`. -/
def torqueFromBmepBar (bmepBar displacementL : ℝ) : ℝ :=
  if displacementL ≤ 0 then 0
  else
    let Vd_m3 := displacementL / 1000
    let bmepPa := bmepBar * 100000
    let torqueNm := bmepPa * Vd_m3 / (4 * Real.pi)
    let torqueLbFt := torqueNm / 1.35581795
    torqueLbFt

/-- `meanPistonSpeed(strokeMm, rpm)` from `script.js` (both halves): guarded
against non-positive (or falsy) stroke. -/
def meanPistonSpeed (strokeMm rpm : ℝ) : ℝ :=
  if strokeMm ≤ 0 then 0
  else
    let strokeM := strokeMm / 1000
    2 * strokeM * rpm / 60

/-- The `techFactor` accumulation of `simulateGasolineNa` (the NA model also
has the no-op `sohc` branch `techFactor *= 1.0`). -/
def techFactorNa (vt : ValvetrainType) (valves : ℕ) : ℝ :=
  1 * (if vt = .pushrod then 0.95 else 1) * (if vt = .sohc then 1 else 1) *
    (if vt = .dohc then 1.05 else 1) *
    (if valves = 2 then 0.95 else 1) * (if valves = 4 then 1.05 else 1)

/-- The `techFactor` accumulation of the turbo/supercharged gasoline models
(no `sohc` branch). -/
def techFactorBoosted (vt : ValvetrainType) (valves : ℕ) : ℝ :=
  1 * (if vt = .pushrod then 0.95 else 1) * (if vt = .dohc then 1.05 else 1) *
    (if valves = 2 then 0.95 else 1) * (if valves = 4 then 1.05 else 1)

/-- The `sizeFactor` pattern repeated in each mode-first shape model:
`if (displacementL > threshold && sizePenalty > 0) sizeFactor =
Math.max(floor, 1 - (sizePenalty/100) * (displacementL - threshold))`. -/
def sizeFactorOver (threshold floorFrac displacementL sizePenalty : ℝ) : ℝ :=
  if threshold < displacementL ∧ 0 < sizePenalty then
    max floorFrac (1 - sizePenalty / 100 * (displacementL - threshold))
  else 1

/-- The geometry/tuning sub-record `simCfg` the mode-first driver passes to its
shape models (it deliberately omits boost, stroke and the piston-speed limit). -/
structure SimCfg where
  displacementL : ℝ
  redline : ℕ
  vePeak : ℝ
  sizePenalty : ℝ
  valvetrainType : ValvetrainType
  valvesPerCyl : ℕ
  compRatio : ℝ

/-- `peakBmepBar` of `simulateGasolineNa`. -/
def gasNaPeakBmep (cfg : SimCfg) (bmepRefBar : ℝ) : ℝ :=
  let basePeakBmepBar := bmepRefBar
  let techFactor := techFactorNa cfg.valvetrainType cfg.valvesPerCyl
  let sizeFactor := sizeFactorOver 2 0.75 cfg.displacementL cfg.sizePenalty
  let veFactor := cfg.vePeak / 100 / 0.95
  let idealCr : ℝ := 10.8
  let deltaCr := cfg.compRatio - idealCr
  let crFactor := max 0.9 (min (1 - 0.01 * deltaCr * deltaCr) 1.05)
  basePeakBmepBar * techFactor * sizeFactor * veFactor * crFactor

/-- `ratioPeakTq` of `simulateGasolineNa`. -/
def gasNaRatioPeakTq (vt : ValvetrainType) (valves : ℕ) : ℝ :=
  let base : ℝ :=
    match vt with
    | .pushrod => 0.6
    | .sohc => 0.65
    | .dohc => 0.7
  let r := base + (if valves = 2 then -0.05 else 0) + (if valves = 4 then 0.03 else 0)
  max 0.5 (min r 0.8)

/-- The per-rpm `frac` of `simulateGasolineNa`. -/
def gasNaFrac (cfg : SimCfg) (rpmMin rpmMax rpm : ℝ) : ℝ :=
  let rpmPeakTq := gasNaRatioPeakTq cfg.valvetrainType cfg.valvesPerCyl * (cfg.redline : ℝ)
  if rpm ≤ rpmPeakTq then
    let x := (rpm - rpmMin) / (rpmPeakTq - rpmMin)
    let lowBase : ℝ := 0.4
    let e : ℝ :=
      if cfg.valvetrainType = .pushrod then 0.75
      else if cfg.valvetrainType = .sohc then 0.9 else 1.1
    lowBase + (1 - lowBase) * pow01 x e
  else
    let x := (rpm - rpmPeakTq) / (rpmMax - rpmPeakTq)
    let e : ℝ := if cfg.valvetrainType = .pushrod then 1.3 else 1.1
    1 - (1 - 0.3) * pow01 x e

/-- `peakBmepBar` of `simulateGasolineTurbo`. -/
def gasTurboPeakBmep (cfg : SimCfg) (effBoostPsi compFactor : ℝ) : ℝ :=
  let baseNaBmepBar : ℝ := 12.5
  let techFactor := techFactorBoosted cfg.valvetrainType cfg.valvesPerCyl
  let sizeFactor := sizeFactorOver 2 0.75 cfg.displacementL cfg.sizePenalty
  let veFactor := cfg.vePeak / 100 / 0.95
  let boostGainPerPsi : ℝ := 0.45
  let boostedBmepBar := min (baseNaBmepBar + boostGainPerPsi * effBoostPsi) 22
  boostedBmepBar * techFactor * sizeFactor * veFactor * compFactor

/-- The per-rpm `frac` of `simulateGasolineTurbo`. -/
def gasTurboFrac (redline : ℕ) (rpmMin rpmMax rpm : ℝ) : ℝ :=
  let spoolRpm := max (rpmMin + 300) ((redline : ℝ) * 0.25)
  let fullBoostRpm := (redline : ℝ) * 0.4
  let plateauEndRpm := (redline : ℝ) * 0.75
  if rpm < spoolRpm then
    let x := (rpm - rpmMin) / (spoolRpm - rpmMin)
    let lowBase : ℝ := 0.35
    lowBase + (0.7 - lowBase) * pow01 x (0.9 : ℝ)
  else if rpm < fullBoostRpm then
    let x := (rpm - spoolRpm) / (fullBoostRpm - spoolRpm)
    0.7 + 0.3 * clamp01 x
  else if rpm ≤ plateauEndRpm then 1
  else
    let x := (rpm - plateauEndRpm) / (rpmMax - plateauEndRpm)
    1 - (1 - 0.6) * pow01 x (1.1 : ℝ)

/-- `peakBmepBar` of `simulateGasolineSupercharged`. -/
def gasScPeakBmep (cfg : SimCfg) (effBoostPsi compFactor : ℝ) : ℝ :=
  let baseNaBmepBar : ℝ := 12.5
  let techFactor := techFactorBoosted cfg.valvetrainType cfg.valvesPerCyl
  let sizeFactor := sizeFactorOver 2 0.75 cfg.displacementL cfg.sizePenalty
  let veFactor := cfg.vePeak / 100 / 0.95
  let boostGainPerPsi : ℝ := 0.40
  let boostedBmepBar := min (baseNaBmepBar + boostGainPerPsi * effBoostPsi) 20
  boostedBmepBar * techFactor * sizeFactor * veFactor * compFactor

/-- The per-rpm `frac` of `simulateGasolineSupercharged`. -/
def gasScFrac (rpmMin rpmMax rpm : ℝ) : ℝ :=
  if rpm < 1500 then
    let x := (rpm - rpmMin) / (1500 - rpmMin)
    let lowBase : ℝ := 0.5
    lowBase + (0.95 - lowBase) * clamp01 x
  else
    let x := (rpm - 1500) / (rpmMax - 1500)
    0.95 - 0.25 * pow01 x (1.2 : ℝ)

/-- `peakBmepBar` of the mode-first `simulateDieselTurbo`. -/
def dieselPeakBmep (cfg : SimCfg) (effBoostPsi compFactor : ℝ) : ℝ :=
  let baseNaBmepBar : ℝ := 12
  let heavyDuty := (8 : ℝ) ≤ cfg.displacementL
  let boostGainPerPsi : ℝ := if heavyDuty then 0.45 else 0.50
  let boostedBmepBar :=
    min (baseNaBmepBar + boostGainPerPsi * effBoostPsi) (if heavyDuty then 28 else 26)
  let veFactor := cfg.vePeak / 100 / 0.95
  let sizeFactor := sizeFactorOver 6 0.8 cfg.displacementL cfg.sizePenalty
  let idealCr : ℝ := 17
  let deltaCr := cfg.compRatio - idealCr
  let crFactor := max 0.9 (min (1 - 0.01 * |deltaCr|) 1.05)
  boostedBmepBar * veFactor * sizeFactor * crFactor * compFactor

/-- The per-rpm `frac` of the mode-first `simulateDieselTurbo`. -/
def dieselFrac (displacementL : ℝ) (redline : ℕ) (rpmMin rpmMax rpm : ℝ) : ℝ :=
  let heavyDuty := (8 : ℝ) ≤ displacementL
  let rpmPeakTq := if heavyDuty then (redline : ℝ) * 0.35 else (redline : ℝ) * 0.4
  let plateauEnd := if heavyDuty then (redline : ℝ) * 0.55 else (redline : ℝ) * 0.6
  if rpm ≤ rpmPeakTq then
    let x := (rpm - rpmMin) / (rpmPeakTq - rpmMin)
    let lowBase : ℝ := 0.6
    lowBase + (1 - lowBase) * pow01 x (0.7 : ℝ)
  else if rpm ≤ plateauEnd then
    let x := (rpm - rpmPeakTq) / (plateauEnd - rpmPeakTq)
    1 - 0.07 * clamp01 x
  else
    let x := (rpm - plateauEnd) / (rpmMax - plateauEnd)
    0.93 - 0.38 * pow01 x (1.1 : ℝ)

/-- `peakBmepBar` of the mode-first `simulateMethanol`. -/
def methanolPeakBmep (cfg : SimCfg) (effBoostPsi compFactor : ℝ)
    (inductionType : InductionType) : ℝ :=
  let baseNaBmepBar : ℝ := 15
  let boostGainPerPsi : ℝ := 0.5
  let boostedBmepBar :=
    min (if inductionType = .turbo then baseNaBmepBar + boostGainPerPsi * effBoostPsi
      else baseNaBmepBar)
      (if inductionType = .turbo then 24 else 18)
  let veFactor := cfg.vePeak / 100 / 0.95
  let sizeFactor := sizeFactorOver 3 0.8 cfg.displacementL cfg.sizePenalty
  let idealCr : ℝ := 13.5
  let deltaCr := cfg.compRatio - idealCr
  let crFactor := max 0.9 (min (1 + 0.01 * deltaCr) 1.1)
  boostedBmepBar * veFactor * sizeFactor * crFactor * compFactor

/-- The per-rpm `frac` of the mode-first `simulateMethanol`. -/
def methanolFrac (redline : ℕ) (rpmMin rpmMax rpm : ℝ) : ℝ :=
  let rpmPeakTq := (redline : ℝ) * 0.7
  if rpm ≤ rpmPeakTq then
    let x := (rpm - rpmMin) / (rpmPeakTq - rpmMin)
    let lowBase : ℝ := 0.3
    lowBase + (1 - lowBase) * pow01 x (1.2 : ℝ)
  else
    let x := (rpm - rpmPeakTq) / (rpmMax - rpmPeakTq)
    1 - (1 - 0.7) * pow01 x (0.8 : ℝ)

/-- The full per-run `EngineConfig` record produced by the mode-first
`readConfigFromForm`. -/
structure Config where
  engineMode : EngineMode
  cylinders : ℕ
  boreMm : ℝ
  strokeMm : ℝ
  displacementL : ℝ
  compRatio : ℝ
  redline : ℕ
  rpmStep : ℕ
  vePeak : ℝ
  sizePenalty : ℝ
  pistonSpeedLimit : ℝ
  boostPsi : ℝ
  methanolInduction : InductionType
  valvetrainType : ValvetrainType
  valvesPerCyl : ℕ

/-- The `inductionType` the mode-first driver derives from `engineMode`
(lines 617-622). -/
def resolvedInduction (cfg : Config) : InductionType :=
  match cfg.engineMode with
  | .gasNa => .na
  | .gasTurbo => .turbo
  | .gasSc => .supercharger
  | .dieselTurbo => .turbo
  | .methanolRace => cfg.methanolInduction

/-- The `simCfg` sub-record built by the driver (lines 631-639). -/
def simCfgOf (cfg : Config) : SimCfg :=
  { displacementL := cfg.displacementL, redline := cfg.redline, vePeak := cfg.vePeak,
    sizePenalty := cfg.sizePenalty, valvetrainType := cfg.valvetrainType,
    valvesPerCyl := cfg.valvesPerCyl, compRatio := cfg.compRatio }

/-- The bmep value (`peakBmepBar * frac`) of the shape model the mode-first
driver dispatches to, at one rpm of the grid `rpmRange`. -/
def baseBmepAt (cfg : Config) (rpmRange : List ℕ) (rpm : ℕ) : ℝ :=
  let modeMeta := getModeConfig cfg.engineMode
  let inductionType := resolvedInduction cfg
  let bc :=
    getEffectiveBoostAndCompFactor modeMeta.1 inductionType cfg.compRatio cfg.boostPsi
  let simCfg := simCfgOf cfg
  let rpmMin := ((rpmRange.headD 0 : ℕ) : ℝ)
  let rpmMax := ((rpmRange.getLastD 0 : ℕ) : ℝ)
  match cfg.engineMode with
  | .gasNa => gasNaPeakBmep simCfg modeMeta.2 * gasNaFrac simCfg rpmMin rpmMax (rpm : ℝ)
  | .gasTurbo =>
      gasTurboPeakBmep simCfg bc.effBoostPsi bc.compFactor *
        gasTurboFrac simCfg.redline rpmMin rpmMax (rpm : ℝ)
  | .gasSc =>
      gasScPeakBmep simCfg bc.effBoostPsi bc.compFactor * gasScFrac rpmMin rpmMax (rpm : ℝ)
  | .dieselTurbo =>
      dieselPeakBmep simCfg bc.effBoostPsi bc.compFactor *
        dieselFrac simCfg.displacementL simCfg.redline rpmMin rpmMax (rpm : ℝ)
  | .methanolRace =>
      methanolPeakBmep simCfg bc.effBoostPsi bc.compFactor inductionType *
        methanolFrac simCfg.redline rpmMin rpmMax (rpm : ℝ)

/-- The base torque of the dispatched shape model at one rpm:
`torqueFromBmepBar(bmepBar, displacementL)`. -/
def baseTorqueAt (cfg : Config) (rpmRange : List ℕ) (rpm : ℕ) : ℝ :=
  torqueFromBmepBar (baseBmepAt cfg rpmRange rpm) cfg.displacementL

/-- The global piston-speed penalty of the mode-first driver (lines 687-691). -/
def psFactor (cfg : Config) (rpm : ℕ) : ℝ :=
  let ps := meanPistonSpeed cfg.strokeMm (rpm : ℝ)
  if 0 < cfg.pistonSpeedLimit ∧ cfg.pistonSpeedLimit < ps then
    let excess := (ps - cfg.pistonSpeedLimit) / cfg.pistonSpeedLimit
    max 0.6 (1 - 0.6 * excess)
  else 1

/-- Final per-point torque of the mode-first driver: base torque times the
piston-speed factor (line 693). -/
def finalTorqueAt (cfg : Config) (rpmRange : List ℕ) (rpm : ℕ) : ℝ :=
  baseTorqueAt cfg rpmRange rpm * psFactor cfg rpm

/-- The mode-first `simulateEngine` return record. -/
structure Result where
  rpm : List ℕ
  torque : List ℝ
  hp : List ℝ
  bmepBarArr : List ℝ
  bmepRefBar : ℝ
  fuelType : FuelType
  inductionType : InductionType

/-- `simulateEngine(cfg)` from the mode-first `script.js` (lines 594-713):
shape-model dispatch followed by the global piston-speed loop, every final
`hp` being `hpFromTorque(torque, rpm)` (line 694). -/
def simulateEngine (cfg : Config) : Result :=
  let rpmRange := createRpmRange cfg.redline cfg.rpmStep 1000
  { rpm := rpmRange,
    torque := rpmRange.map (finalTorqueAt cfg rpmRange),
    hp := rpmRange.map (fun r => hpFromTorque (finalTorqueAt cfg rpmRange r) (r : ℝ)),
    bmepBarArr := rpmRange.map (fun r =>
      bmepPsiFromTorque (finalTorqueAt cfg rpmRange r) cfg.displacementL * 0.0689476),
    bmepRefBar := (getModeConfig cfg.engineMode).2,
    fuelType := (getModeConfig cfg.engineMode).1,
    inductionType := resolvedInduction cfg }

/-- The mode-first HTML form: number inputs are `Option` (missing/`NaN` is
`none`), selects are enum-valued. -/
structure Form where
  engineMode : EngineMode
  cylinders : Option ℕ
  boreMm : Option ℚ
  strokeMm : Option ℚ
  displacementL : Option ℚ
  compressionRatio : Option ℚ
  redlineRpm : Option ℕ
  rpmStep : Option ℕ
  vePeak : Option ℚ
  sizePenalty : Option ℚ
  pistonSpeedLimit : Option ℚ
  boostPsi : Option ℚ
  methanolInduction : InductionType
  valvetrainType : ValvetrainType
  valvesPerCyl : Option ℕ

/-- JS `parseInt(...) || d`: missing/`NaN`/`0` falls back to the default. -/
def orDefaultN (v : Option ℕ) (d : ℕ) : ℕ := if v.getD 0 = 0 then d else v.getD 0

/-- JS `parseFloat(...) || d`. -/
def orDefaultQ (v : Option ℚ) (d : ℚ) : ℚ := if v.getD 0 = 0 then d else v.getD 0

/-- `readConfigFromForm()` of the mode-first `script.js` (lines 717-768):
every missing/falsy field is replaced by a default (`cylinders || 4`,
`compRatio || 10.5`, `redline || 7000`, `rpmStep || 250`, `vePeak || 95`, …),
and a falsy displacement field is recomputed from bore/stroke/cylinders. -/
def readConfigFromForm (f : Form) : Config :=
  let cylinders := orDefaultN f.cylinders 4
  let boreMm : ℝ := ((f.boreMm.getD 0 : ℚ) : ℝ)
  let strokeMm : ℝ := ((f.strokeMm.getD 0 : ℚ) : ℝ)
  let displacementL0 : ℝ := ((f.displacementL.getD 0 : ℚ) : ℝ)
  let displacementL :=
    if displacementL0 = 0 then litersFromBoreStroke boreMm strokeMm (cylinders : ℝ)
    else displacementL0
  { engineMode := f.engineMode,
    cylinders := cylinders,
    boreMm := boreMm,
    strokeMm := strokeMm,
    displacementL := displacementL,
    compRatio := ((orDefaultQ f.compressionRatio 10.5 : ℚ) : ℝ),
    redline := orDefaultN f.redlineRpm 7000,
    rpmStep := orDefaultN f.rpmStep 250,
    vePeak := ((orDefaultQ f.vePeak 95 : ℚ) : ℝ),
    sizePenalty := ((f.sizePenalty.getD 0 : ℚ) : ℝ),
    pistonSpeedLimit := ((f.pistonSpeedLimit.getD 0 : ℚ) : ℝ),
    boostPsi := ((f.boostPsi.getD 0 : ℚ) : ℝ),
    methanolInduction := f.methanolInduction,
    valvetrainType := f.valvetrainType,
    valvesPerCyl := orDefaultN f.valvesPerCyl 4 }

/-- `onFormSubmit` of the mode-first `script.js` (lines 770-803): the only
rejection is a non-positive resolved displacement; otherwise the simulation
runs on the substituted-default config. -/
def onFormSubmit (f : Form) : Except String Result :=
  let cfg := readConfigFromForm f
  if cfg.displacementL ≤ 0 then
    .error
      "Please enter valid bore, stroke, and cylinder count so displacement can be calculated."
  else .ok (simulateEngine cfg)

end ModeFirst

namespace V41

/-- JS `x || d` on a number already in hand (`0` falls back to the default);
used by the V4.1 driver as `effBoostPsi || 7`, `effBoostPsi || 18`, …. -/
def jsOr (x d : ℝ) : ℝ := if x = 0 then d else x

/-- Per-rpm torque of `simulateNaPushrodBase(rpmRange, displacementL)`
(V4.1, lines 1299-1330). -/
def naPushrodTorqueAt (displacementL : ℝ) (rpm : ℕ) : ℝ :=
  let dispCID := litersToCID displacementL
  let baseTqPerCID : ℝ := 1.20
  let peakTorque := baseTqPerCID * dispCID
  let peakTqRpm : ℝ := 4300
  let peakHpRpm : ℝ := 5800
  let tq :=
    if (rpm : ℝ) ≤ peakTqRpm then
      peakTorque * ((rpm : ℝ) / peakTqRpm) ^ (0.75 : ℝ)
    else
      let dropRatio := ((rpm : ℝ) - peakTqRpm) / (peakHpRpm - peakTqRpm)
      let drop := 0.18 * pow01 dropRatio (1.2 : ℝ)
      peakTorque * (1 - drop)
  if peakHpRpm < (rpm : ℝ) then
    let extra := ((rpm : ℝ) - peakHpRpm) / (peakHpRpm * 0.4)
    tq * max 0 (1 - 0.5 * extra)
  else tq

/-- `baseTqPerCID` of `simulateNaOHCBase`. -/
def naOHCBaseTqPerCID (vt : ValvetrainType) (valves : ℕ) : ℝ :=
  1.18 + (if vt = .dohc then 0.04 else 0) + (if 4 ≤ valves then 0.03 else 0) +
    (if valves = 2 then -0.02 else 0)

/-- `peakTqRpm` of `simulateNaOHCBase` (base rpm skewed by valvetrain, plus
`(valvesPerCyl - 2) * 300`). -/
def naOHCPeakTqRpm (vt : ValvetrainType) (valves : ℕ) : ℝ :=
  let basePeakTqRpm : ℝ :=
    5500 + (if vt = .sohc then -500 else 0) + (if vt = .dohc then 250 else 0)
  let valveBias := ((valves : ℝ) - 2) * 300
  basePeakTqRpm + valveBias

/-- Per-rpm torque of `simulateNaOHCBase(rpmRange, displacementL,
valvetrainType, valvesPerCyl)` (V4.1, lines 1334-1386). -/
def naOHCTorqueAt (displacementL : ℝ) (vt : ValvetrainType) (valves : ℕ) (rpm : ℕ) : ℝ :=
  let dispCID := litersToCID displacementL
  let peakTorque := naOHCBaseTqPerCID vt valves * dispCID
  let peakTqRpm := naOHCPeakTqRpm vt valves
  let peakHpRpm := peakTqRpm + 1500
  let riseExp := 1.0 + 0.02 * ((valves : ℝ) - 2)
  let fallDrop := max 0.05 (min (0.10 - 0.015 * ((valves : ℝ) - 2)) 0.12)
  let tq :=
    if (rpm : ℝ) ≤ peakTqRpm then
      peakTorque * ((rpm : ℝ) / peakTqRpm) ^ riseExp
    else
      let dropRatio := ((rpm : ℝ) - peakTqRpm) / (peakHpRpm - peakTqRpm)
      let drop := fallDrop * clamp01 dropRatio
      peakTorque * (1 - drop)
  if peakHpRpm < (rpm : ℝ) then
    let extra := ((rpm : ℝ) - peakHpRpm) / (peakHpRpm * 0.5)
    tq * max 0 (1 - 0.35 * extra)
  else tq

/-- Per-rpm torque of `simulateTurboPushrod(rpmRange, displacementL,
effBoostPsi)` (V4.1, lines 1391-1427); `redline` is the last grid entry. -/
def turboPushrodTorqueAt (displacementL effBoostPsi : ℝ) (rpmRange : List ℕ) (rpm : ℕ) : ℝ :=
  let naTq := naPushrodTorqueAt displacementL rpm
  let boostFactor := 1 + effBoostPsi / 14.7
  let spoolRpm : ℝ := 2300
  let fullBoostRpm : ℝ := 3200
  let falloffRpm : ℝ := 5500
  let redline := ((rpmRange.getLastD 0 : ℕ) : ℝ)
  if (rpm : ℝ) < spoolRpm then naTq
  else if (rpm : ℝ) < fullBoostRpm then
    let ramp := ((rpm : ℝ) - spoolRpm) / (fullBoostRpm - spoolRpm)
    naTq * (1 + ramp * (boostFactor - 1))
  else if (rpm : ℝ) ≤ falloffRpm then naTq * boostFactor
  else
    let dropRatio := ((rpm : ℝ) - falloffRpm) / (redline - falloffRpm)
    let currentBoostFactor := boostFactor * (1 - 0.45 * clamp01 dropRatio)
    naTq * currentBoostFactor

/-- Per-rpm torque of `simulateTurboOHC(rpmRange, displacementL, effBoostPsi,
valvetrainType, valvesPerCyl)` (V4.1, lines 1430-1465). -/
def turboOHCTorqueAt (displacementL effBoostPsi : ℝ) (vt : ValvetrainType) (valves : ℕ)
    (rpmRange : List ℕ) (rpm : ℕ) : ℝ :=
  let naTq := naOHCTorqueAt displacementL vt valves rpm
  let boostFactor := 1 + effBoostPsi / 14.7
  let spoolRpm : ℝ := 1500
  let fullBoostRpm : ℝ := 2000
  let plateauEndRpm : ℝ := 5000
  let redline := ((rpmRange.getLastD 0 : ℕ) : ℝ)
  if (rpm : ℝ) < spoolRpm then naTq
  else if (rpm : ℝ) < fullBoostRpm then
    let ramp := ((rpm : ℝ) - spoolRpm) / (fullBoostRpm - spoolRpm)
    naTq * (1 + ramp * (boostFactor - 1))
  else if (rpm : ℝ) ≤ plateauEndRpm then naTq * boostFactor
  else
    let dropRatio := ((rpm : ℝ) - plateauEndRpm) / (redline - plateauEndRpm)
    let drop := 0.18 * clamp01 dropRatio
    naTq * boostFactor * (1 - drop)

/-- Per-rpm torque of `simulateSuperchargedGasoline` (V4.1, lines 1468-1509). -/
def superchargedTorqueAt (displacementL effBoostPsi : ℝ) (vt : ValvetrainType) (valves : ℕ)
    (rpmRange : List ℕ) (rpm : ℕ) : ℝ :=
  let naTq :=
    if vt = .pushrod then naPushrodTorqueAt displacementL rpm
    else naOHCTorqueAt displacementL vt valves rpm
  let boostFactor := 1 + effBoostPsi / 14.7
  let maxRpm := ((rpmRange.getLastD 0 : ℕ) : ℝ)
  let effectiveBoost :=
    if (rpm : ℝ) < 1500 then 1 + (boostFactor - 1) * ((rpm : ℝ) / 1500)
    else boostFactor
  let tq := naTq * effectiveBoost
  if 0.9 * maxRpm < (rpm : ℝ) then
    let extra := ((rpm : ℝ) - 0.9 * maxRpm) / (0.1 * maxRpm)
    tq * max 0.8 (1 - 0.2 * extra)
  else tq

/-- Per-rpm torque of `simulateTurboDiesel(rpmRange, displacementL,
effBoostPsi, compRatio, heavyDuty)` (V4.1, lines 1515-1566; the `compRatio`
argument is unused in its body). -/
def turboDieselTorqueAt (displacementL effBoostPsi : ℝ) (heavyDuty : Bool) (rpm : ℕ) : ℝ :=
  let dispCID := litersToCID displacementL
  let baseTqPerCID : ℝ := if heavyDuty then 1.8 else 1.6
  let boostFactor := 1 + effBoostPsi / 14.7
  let peakTorque := baseTqPerCID * boostFactor * dispCID
  let peakTqRpm : ℝ := if heavyDuty then 1500 else 1800
  let redline : ℝ := if heavyDuty then 2500 else 3800
  let plateauStart : ℝ := if heavyDuty then peakTqRpm else 1600
  let plateauEnd : ℝ := if heavyDuty then 2100 else 2800
  if (rpm : ℝ) ≤ peakTqRpm then
    let minFrac : ℝ := 0.5
    let ratio := (rpm : ℝ) / peakTqRpm
    peakTorque * (minFrac + (1 - minFrac) * ratio ^ (0.7 : ℝ))
  else if (rpm : ℝ) ≤ plateauEnd then
    peakTorque * (1 - 0.05 * (((rpm : ℝ) - plateauStart) / (plateauEnd - plateauStart)))
  else
    let fallRange := redline - plateauEnd
    let fallRatio := ((rpm : ℝ) - plateauEnd) / fallRange
    let frac := 1 - 0.4 * pow01 fallRatio (1.2 : ℝ)
    peakTorque * frac

/-- Per-rpm torque of `simulateMethanolRacing(rpmRange, displacementL,
compRatio, effBoostPsi)` (V4.1, lines 1571-1597; `compRatio` is unused in
its body). -/
def methanolRacingTorqueAt (displacementL effBoostPsi : ℝ) (rpmRange : List ℕ) (rpm : ℕ) : ℝ :=
  let naTq := naOHCTorqueAt displacementL .dohc 4 rpm
  let fuelFactor : ℝ := 1.15
  let boostFactor := 1 + effBoostPsi / 14.7
  let maxRpm := ((rpmRange.getLastD 0 : ℕ) : ℝ)
  let tq := naTq * fuelFactor * boostFactor
  if 0.8 * maxRpm < (rpm : ℝ) then
    let extra := ((rpm : ℝ) - 0.8 * maxRpm) / (0.2 * maxRpm)
    tq * (1 + 0.05 * clamp01 extra)
  else tq

/-- The config record the V4.1 `readConfigFromForm` hands to `simulateEngine`. -/
structure Config where
  cylinders : ℕ
  boreMm : ℝ
  strokeMm : ℝ
  displacementL : ℝ
  compRatio : ℝ
  redline : ℕ
  rpmStep : ℕ
  vePeak : ℝ
  sizePenalty : ℝ
  pistonSpeedLimit : ℝ
  fuelType : FuelType
  inductionType : InductionType
  boostPsi : ℝ
  valvetrainType : ValvetrainType
  valvesPerCyl : ℕ

/-- The V4.1 driver's base-model dispatch (lines 1629-1667), per rpm.  The
`else` branch for an unknown `inductionType` cannot arise for the closed
enum and is omitted. -/
def baseTorqueAt (cfg : Config) (rpmRange : List ℕ) (rpm : ℕ) : ℝ :=
  let bc := getCompressionBoostScaling cfg.fuelType cfg.inductionType cfg.compRatio cfg.boostPsi
  match cfg.fuelType with
  | .diesel =>
      let heavy : Bool := decide ((8 : ℝ) ≤ cfg.displacementL)
      turboDieselTorqueAt cfg.displacementL (jsOr bc.effBoostPsi 18) heavy rpm
  | .methanol =>
      -- `effBoostPsi || 0` is the identity
      methanolRacingTorqueAt cfg.displacementL (jsOr bc.effBoostPsi 0) rpmRange rpm
  | .gasoline =>
      match cfg.inductionType with
      | .na =>
          if cfg.valvetrainType = .pushrod then naPushrodTorqueAt cfg.displacementL rpm
          else naOHCTorqueAt cfg.displacementL cfg.valvetrainType cfg.valvesPerCyl rpm
      | .turbo =>
          if cfg.valvetrainType = .pushrod then
            turboPushrodTorqueAt cfg.displacementL (jsOr bc.effBoostPsi 7) rpmRange rpm
          else
            turboOHCTorqueAt cfg.displacementL (jsOr bc.effBoostPsi 7) cfg.valvetrainType
              cfg.valvesPerCyl rpmRange rpm
      | .supercharger =>
          superchargedTorqueAt cfg.displacementL (jsOr bc.effBoostPsi 7) cfg.valvetrainType
            cfg.valvesPerCyl rpmRange rpm

/-- `veScale = (vePeak / 100) / veRef` with `veRef = 0.95` (line 1671). -/
def veScale (cfg : Config) : ℝ := cfg.vePeak / 100 / 0.95

/-- `sizeScale` of the V4.1 driver (lines 1673-1677). -/
def sizeScale (cfg : Config) : ℝ :=
  if 2 < cfg.displacementL ∧ 0 < cfg.sizePenalty then
    max 0.65 (1 - cfg.sizePenalty / 100 * (cfg.displacementL - 2))
  else 1

/-- `pistonScale` of the V4.1 driver (lines 1686-1690). -/
def pistonScale (cfg : Config) (rpm : ℕ) : ℝ :=
  let ps := ModeFirst.meanPistonSpeed cfg.strokeMm (rpm : ℝ)
  if 0 < cfg.pistonSpeedLimit ∧ cfg.pistonSpeedLimit < ps then
    let excess := (ps - cfg.pistonSpeedLimit) / cfg.pistonSpeedLimit
    max 0.6 (1 - 0.5 * excess)
  else 1

/-- Final per-point torque of the V4.1 driver:
`base.torque[i] * (compFactor * veScale * sizeScale * pistonScale)` (lines
1692-1694). -/
def finalTorqueAt (cfg : Config) (rpmRange : List ℕ) (rpm : ℕ) : ℝ :=
  let bc := getCompressionBoostScaling cfg.fuelType cfg.inductionType cfg.compRatio cfg.boostPsi
  let globalScale := bc.compFactor * veScale cfg * sizeScale cfg * pistonScale cfg rpm
  baseTorqueAt cfg rpmRange rpm * globalScale

/-- The V4.1 `simulateEngine` return record. -/
structure Result where
  rpm : List ℕ
  torque : List ℝ
  hp : List ℝ

/-- `simulateEngine(config)` from the V4.1 half of `script.js`
(lines 1601-1702): dispatch, then global VE/size/compression/piston scaling,
with `h = hpFromTorque(tq, rpm)` at every point (line 1695). -/
def simulateEngine (cfg : Config) : Result :=
  let rpmRange := createRpmRange cfg.redline cfg.rpmStep 1000
  { rpm := rpmRange,
    torque := rpmRange.map (finalTorqueAt cfg rpmRange),
    hp := rpmRange.map (fun r => hpFromTorque (finalTorqueAt cfg rpmRange r) (r : ℝ)) }

end V41

namespace V3

/-- The v3 HTML form (`part_000`, submit handler): number inputs are
`Option` (missing or unparsable is `none`), selects are enum-valued. -/
structure Form where
  cylinders : Option ℕ
  boreMm : Option ℚ
  strokeMm : Option ℚ
  redlineRpm : Option ℕ
  rpmStep : Option ℕ
  vePeak : Option ℚ
  sizePenalty : Option ℚ
  pistonSpeedLimit : Option ℚ
  fuelType : FuelType
  inductionType : InductionType
  boostPsi : Option ℚ
  compressionRatio : Option ℚ
  valvesPerCyl : Option ℕ
  valvetrainType : ValvetrainType

/-- The v3 form submit handler (`part_000`, lines 443-517): validation happens
before `simulateEngine` is invoked; an `error` means the warning text was
shown and no simulation ran.  A redline above 15000 is capped (with a
warning), not rejected. -/
def handleSubmit (f : Form) : Except String V3Params :=
  let cylinders := f.cylinders.getD 0
  let boreMm := f.boreMm.getD 0
  let strokeMm := f.strokeMm.getD 0
  let redlineRpm := f.redlineRpm.getD 0
  let rpmStep := f.rpmStep.getD 0
  let compressionRatio := f.compressionRatio.getD 0
  let boostPsi : ℚ :=
    if f.inductionType = .na then 0 else max 0 (f.boostPsi.getD 0)
  if ¬ (truthyN f.cylinders ∧ truthyQ f.boreMm ∧ truthyQ f.strokeMm ∧
      truthyN f.redlineRpm ∧ truthyN f.rpmStep ∧ truthyQ f.compressionRatio) then
    .error "Please fill in all required numeric fields."
  else if redlineRpm < 3000 then
    .error "Redline must be at least 3000 rpm."
  else if redlineRpm ≤ rpmStep then
    .error "RPM step is too large relative to redline."
  else
    let redlineRpm := if 15000 < redlineRpm then 15000 else redlineRpm
    .ok
      { cylinders := (cylinders : ℝ),
        boreMm := ((boreMm : ℚ) : ℝ),
        strokeMm := ((strokeMm : ℚ) : ℝ),
        redlineRpm := redlineRpm,
        rpmStep := rpmStep,
        vePeakPercent := ((f.vePeak.getD 0 : ℚ) : ℝ),
        sizePenaltyPerL := ((f.sizePenalty.getD 0 : ℚ) : ℝ),
        pistonSpeedLimit := ((f.pistonSpeedLimit.getD 0 : ℚ) : ℝ),
        fuelType := f.fuelType,
        inductionType := f.inductionType,
        boostPsiInput := ((boostPsi : ℚ) : ℝ),
        compressionRatio := ((compressionRatio : ℚ) : ℝ),
        valvesPerCyl := f.valvesPerCyl.getD 0,
        valvetrainType := f.valvetrainType }

end V3

namespace V2

/-- The parameter record the v2 handler passes to its `simulateEngine`
(`part_001`, lines 396-408). -/
structure V2Params where
  cylinders : ℝ
  boreMm : ℝ
  strokeMm : ℝ
  redlineRpm : ℕ
  rpmStep : ℕ
  vePeakPercent : ℝ
  sizePenaltyPerL : ℝ
  pistonSpeedLimit : ℝ
  fuelType : FuelType
  inductionType : InductionType
  boostPsiInput : ℝ

/-- The v2 HTML form (`part_001`, submit handler). -/
structure Form where
  cylinders : Option ℕ
  boreMm : Option ℚ
  strokeMm : Option ℚ
  redlineRpm : Option ℕ
  rpmStep : Option ℕ
  vePeak : Option ℚ
  sizePenalty : Option ℚ
  pistonSpeedLimit : Option ℚ
  fuelType : FuelType
  inductionType : InductionType
  boostPsi : Option ℚ

/-- The v2 form submit handler (`part_001`, lines 317-419): like v3's but its
first check additionally requires `rpmStep > 0` and there is no
compression-ratio field. -/
def handleSubmit (f : Form) : Except String V2Params :=
  let redlineRpm := f.redlineRpm.getD 0
  let rpmStep := f.rpmStep.getD 0
  let boostPsi : ℚ :=
    if f.inductionType = .na then 0 else max 0 (f.boostPsi.getD 0)
  if ¬ (truthyN f.cylinders ∧ truthyQ f.boreMm ∧ truthyQ f.strokeMm ∧
      truthyN f.redlineRpm ∧ truthyN f.rpmStep ∧ 0 < rpmStep) then
    .error "Please fill in all required numeric fields."
  else if redlineRpm < 3000 then
    .error "Redline must be at least 3000 rpm."
  else if redlineRpm ≤ rpmStep then
    .error "RPM step is too large relative to redline."
  else
    let redlineRpm := if 15000 < redlineRpm then 15000 else redlineRpm
    .ok
      { cylinders := ((f.cylinders.getD 0 : ℕ) : ℝ),
        boreMm := ((f.boreMm.getD 0 : ℚ) : ℝ),
        strokeMm := ((f.strokeMm.getD 0 : ℚ) : ℝ),
        redlineRpm := redlineRpm,
        rpmStep := rpmStep,
        vePeakPercent := ((f.vePeak.getD 0 : ℚ) : ℝ),
        sizePenaltyPerL := ((f.sizePenalty.getD 0 : ℚ) : ℝ),
        pistonSpeedLimit := ((f.pistonSpeedLimit.getD 0 : ℚ) : ℝ),
        fuelType := f.fuelType,
        inductionType := f.inductionType,
        boostPsiInput := ((boostPsi : ℚ) : ℝ) }

end V2

/-- `Except.isOk`-style discriminator used to state rejection results. -/
def isErr {ε α : Type} : Except ε α → Bool
  | .error _ => true
  | .ok _ => false

theorem rpmLoop_eq_range' (step : ℕ) (hs : 0 < step) :
    ∀ (fuel r maxRpm : ℕ), maxRpm + 1 - r ≤ fuel →
      rpmLoop fuel r maxRpm step =
        List.range' r (if r ≤ maxRpm then (maxRpm - r) / step + 1 else 0) step
  | 0, r, maxRpm, h => by
      have hr : ¬ r ≤ maxRpm := by omega
      simp [rpmLoop, hr]
  | fuel + 1, r, maxRpm, h => by
      by_cases hr : r ≤ maxRpm
      · rw [rpmLoop, if_pos hr,
          rpmLoop_eq_range' step hs fuel (r + step) maxRpm (by omega), if_pos hr]
        by_cases hr2 : r + step ≤ maxRpm
        · rw [if_pos hr2]
          have hstep : step ≤ maxRpm - r := by omega
          have hdiv : (maxRpm - r) / step = (maxRpm - r - step) / step + 1 :=
            Nat.div_eq_sub_div hs hstep
          have hsub : maxRpm - r - step = maxRpm - (r + step) := by omega
          rw [hsub] at hdiv
          rw [show (maxRpm - r) / step + 1 = ((maxRpm - (r + step)) / step + 1) + 1 by
            omega]
          conv_rhs => rw [List.range'_succ]
        · rw [if_neg hr2]
          have hz : (maxRpm - r) / step = 0 := Nat.div_eq_of_lt (by omega)
          rw [hz]
          conv_rhs => rw [List.range'_succ]
      · rw [rpmLoop, if_neg hr, if_neg hr]
        simp

theorem createRpmRange_eq_range' (redline step idle : ℕ) (hs : 0 < step) :
    createRpmRange redline step idle =
      List.range' idle
        ((max (if redline = 0 then 6000 else redline) (idle + step) - idle) / step + 1)
        step := by
  unfold createRpmRange
  rw [rpmLoop_eq_range' step hs _ idle _ (by omega),
    if_pos (by omega)]

theorem v3Grid_eq_range' (redlineRpm rpmStep : ℕ) (hs : 0 < rpmStep) :
    v3Grid redlineRpm rpmStep =
      List.range' 1000
        (if 1000 ≤ redlineRpm then (redlineRpm - 1000) / rpmStep + 1 else 0)
        rpmStep := by
  unfold v3Grid
  rw [rpmLoop_eq_range' rpmStep hs _ 1000 _ (by omega)]

theorem range'_pairwise_lt (step : ℕ) (hs : 0 < step) :
    ∀ (n s : ℕ), (List.range' s n step).Pairwise (· < ·)
  | 0, s => by simp
  | n + 1, s => by
      rw [List.range'_succ]
      refine List.Pairwise.cons ?_ (range'_pairwise_lt step hs n (s + step))
      intro x hx
      rcases List.mem_range'.1 hx with ⟨i, _, rfl⟩
      omega

theorem range'_getD_step (s n step d : ℕ) (i : ℕ) (h : i + 1 < n) :
    (List.range' s n step).getD (i + 1) d = (List.range' s n step).getD i d + step := by
  have hlen : (List.range' s n step).length = n := List.length_range' s step n
  have h1 : i + 1 < (List.range' s n step).length := by omega
  have h0 : i < (List.range' s n step).length := by omega
  rw [List.getD_eq_getElem _ _ h1, List.getD_eq_getElem _ _ h0,
    List.getElem_range', List.getElem_range']
  ring

theorem mem_rpmLoop_ge :
    ∀ (fuel r maxRpm step x : ℕ), x ∈ rpmLoop fuel r maxRpm step → r ≤ x
  | 0, r, maxRpm, step, x => by simp [rpmLoop]
  | fuel + 1, r, maxRpm, step, x => by
      unfold rpmLoop
      split
      · intro hx
        rcases List.mem_cons.1 hx with rfl | hx
        · exact le_refl x
        · exact le_trans (Nat.le_add_right r step) (mem_rpmLoop_ge fuel (r + step) maxRpm step x hx)
      · simp

/-! ### Elementary clamp/power facts -/

theorem clamp_le_hi (v lo hi : ℝ) : clamp v lo hi ≤ hi := min_le_right _ _

theorem lo_le_clamp (v lo hi : ℝ) (h : lo ≤ hi) : lo ≤ clamp v lo hi :=
  le_min (le_max_right _ _) h

theorem clamp_mono (a b lo hi : ℝ) (h : a ≤ b) : clamp a lo hi ≤ clamp b lo hi :=
  min_le_min (max_le_max h (le_refl lo)) (le_refl hi)

theorem maxmin_bounds (v lo hi a b : ℝ) (h1 : a ≤ lo) (h2 : lo ≤ hi) (h3 : hi ≤ b) :
    a ≤ max lo (min v hi) ∧ max lo (min v hi) ≤ b :=
  ⟨le_trans h1 (le_max_left _ _), max_le (le_trans h2 h3) (le_trans (min_le_right _ _) h3)⟩

theorem clamp01_nonneg (x : ℝ) : 0 ≤ clamp01 x := le_max_left 0 _

theorem clamp01_le_one (x : ℝ) : clamp01 x ≤ 1 := max_le zero_le_one (min_le_right _ _)

theorem pow01_nonneg (x e : ℝ) : 0 ≤ pow01 x e := Real.rpow_nonneg (clamp01_nonneg x) e

theorem pow01_le_one (x e : ℝ) (he : 0 ≤ e) : pow01 x e ≤ 1 :=
  Real.rpow_le_one (clamp01_nonneg x) (clamp01_le_one x) he

theorem ite_pos {c : Prop} [Decidable c] {a b : ℝ} (ha : 0 < a) (hb : 0 < b) :
    0 < if c then a else b := by
  split <;> assumption

theorem ite_nonneg {c : Prop} [Decidable c] {a b : ℝ} (ha : 0 ≤ a) (hb : 0 ≤ b) :
    0 ≤ if c then a else b := by
  split <;> assumption

/-- `if a < b then b else a = max b a`. -/
theorem ite_lt_eq_max (a b : ℝ) : (if a < b then b else a) = max b a := by
  split
  · exact (max_eq_left (le_of_lt (by assumption))).symm
  · exact (max_eq_right (not_lt.1 (by assumption))).symm

/-! ### C2 / C10 — the rpm grids -/

/-- **C2** (amended).  For step `S > 0`: the v3/v2 loop grid (`1000 … redline`)
has exactly `⌊(R − 1000)/S⌋ + 1` points whenever `R ≥ 1000`, is non-empty
whenever `R > 1000`, starts at 1000, is strictly increasing, and consecutive
points differ by exactly `S`.  `createRpmRange` satisfies the same count
formula only under the additional hypothesis `R ≥ 1000 + S` (its upper bound
is `max(R or 6000, 1000 + S)`), and always starts at 1000 with strictly
increasing rpm in steps of exactly `S`. -/
theorem claim_C2 (R S : ℕ) (hS : 0 < S) :
    ((1000 ≤ R → (v3Grid R S).length = (R - 1000) / S + 1) ∧
      (1000 < R → v3Grid R S ≠ []) ∧
      (1000 ≤ R → (v3Grid R S).head? = some 1000) ∧
      (v3Grid R S).Pairwise (· < ·) ∧
      (∀ i, i + 1 < (v3Grid R S).length →
        (v3Grid R S).getD (i + 1) 0 = (v3Grid R S).getD i 0 + S)) ∧
    ((1000 + S ≤ R → (createRpmRange R S 1000).length = (R - 1000) / S + 1) ∧
      (createRpmRange R S 1000).head? = some 1000 ∧
      (createRpmRange R S 1000).Pairwise (· < ·) ∧
      (∀ i, i + 1 < (createRpmRange R S 1000).length →
        (createRpmRange R S 1000).getD (i + 1) 0 = (createRpmRange R S 1000).getD i 0 + S)) := by
  have hv3 := v3Grid_eq_range' R S hS
  have hcr := createRpmRange_eq_range' R S 1000 hS
  constructor
  · refine ⟨?_, ?_, ?_, ?_, ?_⟩
    · intro hR
      rw [hv3, if_pos hR]
      simp
    · intro hR
      rw [hv3, if_pos (le_of_lt hR)]
      simp
    · intro hR
      rw [hv3, if_pos hR, List.range'_succ]
      rfl
    · rw [hv3]
      exact range'_pairwise_lt S hS _ _
    · intro i hi
      rw [hv3] at hi ⊢
      refine range'_getD_step _ _ _ _ _ ?_
      simpa using hi
  · have hmax : ∀ h : 1000 + S ≤ R,
        max (if R = 0 then 6000 else R) (1000 + S) - 1000 = R - 1000 := by
      intro h
      rw [if_neg (by omega), max_eq_left h]
    refine ⟨?_, ?_, ?_, ?_⟩
    · intro hR
      rw [hcr, hmax hR]
      simp
    · rw [hcr, List.range'_succ]
      rfl
    · rw [hcr]
      exact range'_pairwise_lt S hS _ _
    · intro i hi
      rw [hcr] at hi ⊢
      refine range'_getD_step _ _ _ _ _ ?_
      simpa using hi

/-- **C2 counterexample**: for redline 3000 and step 2500 (a positive step
below the redline) `createRpmRange` produces 2 points (`[1000, 3500]`), not
`⌊(3000 − 1000)/2500⌋ + 1 = 1`: the loop runs to
`max(redline, 1000 + step) = 3500`, past the redline. -/
theorem claim_C2_counterexample :
    0 < 2500 ∧ 2500 < 3000 ∧
      (createRpmRange 3000 2500 1000).length ≠ (3000 - 1000) / 2500 + 1 ∧
      createRpmRange 3000 2500 1000 = [1000, 3500] := by
  refine ⟨by norm_num, by norm_num, ?_, ?_⟩ <;> decide

theorem claim_C2_witness :
    (v3Grid 7000 250).length = (7000 - 1000) / 250 + 1 ∧
      (createRpmRange 7000 250 1000).length = (7000 - 1000) / 250 + 1 :=
  ⟨(claim_C2 7000 250 (by norm_num)).1.1 (by norm_num),
   (claim_C2 7000 250 (by norm_num)).2.1 (by norm_num)⟩

/-- **C10** (confirmed).  For every positive step and every redline (`0`
models a falsy redline, which falls back to 6000), `createRpmRange` starts
at 1000, has at least two points, all points are bounded by
`max(redline or 6000, 1000 + step)`, and when the redline is below
`1000 + step` the grid runs past the redline. -/
theorem claim_C10 (R S : ℕ) (hS : 0 < S) :
    2 ≤ (createRpmRange R S 1000).length ∧
      (createRpmRange R S 1000).head? = some 1000 ∧
      (∀ x ∈ createRpmRange R S 1000, x ≤ max (if R = 0 then 6000 else R) (1000 + S)) ∧
      (R < 1000 + S → ∃ x ∈ createRpmRange R S 1000, R < x) := by
  have hcr := createRpmRange_eq_range' R S 1000 hS
  have hM : 1000 + S ≤ max (if R = 0 then 6000 else R) (1000 + S) := le_max_right _ _
  have hdiv : 1 ≤ (max (if R = 0 then 6000 else R) (1000 + S) - 1000) / S :=
    (Nat.one_le_div_iff hS).mpr (by omega)
  refine ⟨?_, ?_, ?_, ?_⟩
  · rw [hcr]
    simp only [List.length_range']
    omega
  · rw [hcr, List.range'_succ]
    rfl
  · intro x hx
    rw [hcr] at hx
    rcases List.mem_range'.1 hx with ⟨i, hi, rfl⟩
    have hle : S * i ≤ S * ((max (if R = 0 then 6000 else R) (1000 + S) - 1000) / S) :=
      Nat.mul_le_mul_left S (by omega)
    have hfloor : S * ((max (if R = 0 then 6000 else R) (1000 + S) - 1000) / S) ≤
        max (if R = 0 then 6000 else R) (1000 + S) - 1000 := by
      rw [Nat.mul_comm]
      exact Nat.div_mul_le_self _ _
    omega
  · intro hR
    refine ⟨1000 + S * 1, ?_, by omega⟩
    rw [hcr]
    exact List.mem_range'.2 ⟨1, by omega, rfl⟩

theorem claim_C10_witness :
    2 ≤ (createRpmRange 0 250 1000).length ∧
      (createRpmRange 0 250 1000).head? = some 1000 :=
  ⟨(claim_C10 0 250 (by norm_num)).1, (claim_C10 0 250 (by norm_num)).2.1⟩

/-! ### C4 — displacement -/

/-- **C4** (confirmed).  For positive geometry, `litersFromBoreStroke` equals
`(π/4)·(bore/10)²·(stroke/10)·cylinders/1000`, is strictly positive, and
doubles when the cylinder count doubles; it returns 0 whenever any argument
is 0 (falsy).  `computeDisplacementL` (v3/v2) computes the same formula
unconditionally, hence is also 0 at any zero argument. -/
theorem claim_C4 (c b s : ℝ) :
    (0 < c → 0 < b → 0 < s →
      litersFromBoreStroke b s c = Real.pi / 4 * (b / 10) ^ 2 * (s / 10) * c / 1000 ∧
      0 < litersFromBoreStroke b s c ∧
      litersFromBoreStroke b s (2 * c) = 2 * litersFromBoreStroke b s c) ∧
    computeDisplacementL c b s = Real.pi / 4 * (b / 10) ^ 2 * (s / 10) * c / 1000 ∧
    litersFromBoreStroke 0 s c = 0 ∧ litersFromBoreStroke b 0 c = 0 ∧
    litersFromBoreStroke b s 0 = 0 ∧
    computeDisplacementL 0 b s = 0 ∧ computeDisplacementL c 0 s = 0 ∧
    computeDisplacementL c b 0 = 0 := by
  have hform : ∀ b' s' c' : ℝ, b' ≠ 0 → s' ≠ 0 → c' ≠ 0 →
      litersFromBoreStroke b' s' c' =
        Real.pi / 4 * (b' / 10) ^ 2 * (s' / 10) * c' / 1000 := by
    intro b' s' c' hb hs hc
    unfold litersFromBoreStroke
    rw [if_neg (by push_neg; exact ⟨hb, hs, hc⟩)]
    ring
  refine ⟨?_, ?_, ?_, ?_, ?_, ?_, ?_, ?_⟩
  · intro hc hb hs
    have h1 := hform b s c (ne_of_gt hb) (ne_of_gt hs) (ne_of_gt hc)
    refine ⟨h1, ?_, ?_⟩
    · rw [h1]
      have hpi := Real.pi_pos
      positivity
    · rw [h1, hform b s (2 * c) (ne_of_gt hb) (ne_of_gt hs) (by positivity)]
      ring
  · unfold computeDisplacementL
    ring
  · simp [litersFromBoreStroke]
  · simp [litersFromBoreStroke]
  · simp [litersFromBoreStroke]
  · unfold computeDisplacementL
    ring
  · unfold computeDisplacementL
    ring
  · unfold computeDisplacementL
    ring

theorem claim_C4_witness :
    litersFromBoreStroke 87 99 4 =
      Real.pi / 4 * ((87 : ℝ) / 10) ^ 2 * ((99 : ℝ) / 10) * 4 / 1000 ∧
    0 < litersFromBoreStroke 87 99 4 :=
  ⟨((claim_C4 4 87 99).1 (by norm_num) (by norm_num) (by norm_num)).1,
   ((claim_C4 4 87 99).1 (by norm_num) (by norm_num) (by norm_num)).2.1⟩

/-! ### C5 — compression-factor bounds -/

theorem v3_getCompressionFactor_bounds (cr bcr : ℝ) :
    0.85 ≤ V3.getCompressionFactor cr bcr ∧ V3.getCompressionFactor cr bcr ≤ 1.15 :=
  ⟨lo_le_clamp _ _ _ (by norm_num), clamp_le_hi _ _ _⟩

theorem mf_compFactor_bounds (fuel : FuelType) (ind : InductionType) (cr b : ℝ) :
    0.85 ≤ (ModeFirst.getEffectiveBoostAndCompFactor fuel ind cr b).compFactor ∧
      (ModeFirst.getEffectiveBoostAndCompFactor fuel ind cr b).compFactor ≤ 1.15 := by
  cases fuel <;> simp only [ModeFirst.getEffectiveBoostAndCompFactor]
  · split
    · exact maxmin_bounds _ _ _ _ _ (by norm_num) (by norm_num) (by norm_num)
    · exact maxmin_bounds _ _ _ _ _ (by norm_num) (by norm_num) (by norm_num)
  · exact maxmin_bounds _ _ _ _ _ (by norm_num) (by norm_num) (by norm_num)
  · exact maxmin_bounds _ _ _ _ _ (by norm_num) (by norm_num) (by norm_num)

theorem v41_compFactor_bounds (fuel : FuelType) (ind : InductionType) (cr b : ℝ) :
    0.7 ≤ (V41.getCompressionBoostScaling fuel ind cr b).compFactor ∧
      (V41.getCompressionBoostScaling fuel ind cr b).compFactor ≤ 1.15 := by
  simp only [V41.getCompressionBoostScaling]
  exact maxmin_bounds _ _ _ _ _ (by norm_num) (by norm_num) (by norm_num)

/-- **C5** (amended).  The v3 `getCompressionFactor` and the mode-first
resolver keep the compression factor in `[0.85, 1.15]`; the V4.1 resolver
clamps to the wider `[0.7, 1.15]`.  In all three the factor is strictly
positive and never exceeds 1.15, for every fuel, induction, compression
ratio and requested boost. -/
theorem claim_C5 (fuel : FuelType) (ind : InductionType) (cr b bcr : ℝ) :
    (0.85 ≤ V3.getCompressionFactor cr bcr ∧ V3.getCompressionFactor cr bcr ≤ 1.15 ∧
      0 < V3.getCompressionFactor cr bcr) ∧
    (0.85 ≤ (ModeFirst.getEffectiveBoostAndCompFactor fuel ind cr b).compFactor ∧
      (ModeFirst.getEffectiveBoostAndCompFactor fuel ind cr b).compFactor ≤ 1.15 ∧
      0 < (ModeFirst.getEffectiveBoostAndCompFactor fuel ind cr b).compFactor) ∧
    (0.7 ≤ (V41.getCompressionBoostScaling fuel ind cr b).compFactor ∧
      (V41.getCompressionBoostScaling fuel ind cr b).compFactor ≤ 1.15 ∧
      0 < (V41.getCompressionBoostScaling fuel ind cr b).compFactor) :=
  ⟨⟨(v3_getCompressionFactor_bounds cr bcr).1, (v3_getCompressionFactor_bounds cr bcr).2,
      lt_of_lt_of_le (by norm_num) (v3_getCompressionFactor_bounds cr bcr).1⟩,
   ⟨(mf_compFactor_bounds fuel ind cr b).1, (mf_compFactor_bounds fuel ind cr b).2,
      lt_of_lt_of_le (by norm_num) (mf_compFactor_bounds fuel ind cr b).1⟩,
   ⟨(v41_compFactor_bounds fuel ind cr b).1, (v41_compFactor_bounds fuel ind cr b).2,
      lt_of_lt_of_le (by norm_num) (v41_compFactor_bounds fuel ind cr b).1⟩⟩

/-- **C5 counterexample**: boosted gasoline at compression ratio 20 in the
V4.1 resolver yields compFactor = 0.7, strictly below the claimed lower
bound 0.85. -/
theorem claim_C5_counterexample :
    (V41.getCompressionBoostScaling .gasoline .turbo 20 0).compFactor = 0.7 ∧
      (0.7 : ℝ) < 0.85 := by
  constructor
  · simp only [V41.getCompressionBoostScaling]
    rw [if_neg (by decide : ¬ (InductionType.turbo = InductionType.na))]
    norm_num [max_def, min_def]
  · norm_num

/-! ### C3 — boost handling for naturally aspirated configurations -/

theorem mf_gasolineNa_effBoost_zero (cr b : ℝ) :
    (ModeFirst.getEffectiveBoostAndCompFactor .gasoline .na cr b).effBoostPsi = 0 := rfl

theorem v3_boost_independent (p : V3.V3Params) (b1 b2 : ℝ) (h : p.inductionType = .na) :
    V3.simulateEngine { p with boostPsiInput := b1 } =
      V3.simulateEngine { p with boostPsiInput := b2 } := by
  obtain ⟨cy, bo, st, rl, rs, ve, sp, pl, ft, it, bi, cr, vc, vt⟩ := p
  dsimp only at h
  subst h
  have hpt : ∀ rpm : ℕ,
      V3.v3Point ⟨cy, bo, st, rl, rs, ve, sp, pl, ft, .na, b1, cr, vc, vt⟩ rpm =
        V3.v3Point ⟨cy, bo, st, rl, rs, ve, sp, pl, ft, .na, b2, cr, vc, vt⟩ rpm := by
    intro rpm
    unfold V3.v3Point
    simp
  have key : ∀ b : ℝ,
      V3.simulateEngine ⟨cy, bo, st, rl, rs, ve, sp, pl, ft, .na, b, cr, vc, vt⟩ =
        ⟨(v3Grid rl rs).map (V3.v3Point ⟨cy, bo, st, rl, rs, ve, sp, pl, ft, .na, b, cr, vc, vt⟩),
          computeDisplacementL cy bo st,
          (V3.getFuelProps ft .na).densityLbPerGal⟩ := fun _ => rfl
  rw [key b1, key b2, List.map_congr_left (fun a _ => hpt a)]

theorem mf_methanolPeakBmep_na_indep (s : ModeFirst.SimCfg) (e1 e2 c : ℝ) :
    ModeFirst.methanolPeakBmep s e1 c .na = ModeFirst.methanolPeakBmep s e2 c .na := by
  have hno : ¬ (InductionType.na = InductionType.turbo) := by decide
  unfold ModeFirst.methanolPeakBmep
  simp only [if_neg hno]

theorem mf_boost_independent (cfg : ModeFirst.Config) (b1 b2 : ℝ)
    (h : ModeFirst.resolvedInduction cfg = .na) :
    ModeFirst.simulateEngine { cfg with boostPsi := b1 } =
      ModeFirst.simulateEngine { cfg with boostPsi := b2 } := by
  obtain ⟨em, cy, bo, st, dl, crr, rl, rs, ve, sp, pl, bp, mi, vt, vc⟩ := cfg
  cases em
  case gasNa => rfl
  case gasTurbo => simp [ModeFirst.resolvedInduction] at h
  case gasSc => simp [ModeFirst.resolvedInduction] at h
  case dieselTurbo => simp [ModeFirst.resolvedInduction] at h
  case methanolRace =>
    dsimp only [ModeFirst.resolvedInduction] at h
    subst h
    have hpt : ∀ (rpmRange : List ℕ) (r : ℕ),
        ModeFirst.finalTorqueAt
            ⟨.methanolRace, cy, bo, st, dl, crr, rl, rs, ve, sp, pl, b1, .na, vt, vc⟩ rpmRange r =
          ModeFirst.finalTorqueAt
            ⟨.methanolRace, cy, bo, st, dl, crr, rl, rs, ve, sp, pl, b2, .na, vt, vc⟩ rpmRange r := by
      intro rpmRange r
      unfold ModeFirst.finalTorqueAt ModeFirst.baseTorqueAt ModeFirst.baseBmepAt
      dsimp only [ModeFirst.resolvedInduction, ModeFirst.simCfgOf, ModeFirst.getModeConfig]
      rw [show (ModeFirst.getEffectiveBoostAndCompFactor .methanol .na crr b1).compFactor =
          (ModeFirst.getEffectiveBoostAndCompFactor .methanol .na crr b2).compFactor from rfl,
        mf_methanolPeakBmep_na_indep _
          (ModeFirst.getEffectiveBoostAndCompFactor .methanol .na crr b1).effBoostPsi
          (ModeFirst.getEffectiveBoostAndCompFactor .methanol .na crr b2).effBoostPsi
          (ModeFirst.getEffectiveBoostAndCompFactor .methanol .na crr b2).compFactor]
      rfl
    have key : ∀ b : ℝ,
        ModeFirst.simulateEngine
            ⟨.methanolRace, cy, bo, st, dl, crr, rl, rs, ve, sp, pl, b, .na, vt, vc⟩ =
          { rpm := createRpmRange rl rs 1000,
            torque := (createRpmRange rl rs 1000).map
              (ModeFirst.finalTorqueAt
                ⟨.methanolRace, cy, bo, st, dl, crr, rl, rs, ve, sp, pl, b, .na, vt, vc⟩
                (createRpmRange rl rs 1000)),
            hp := (createRpmRange rl rs 1000).map (fun r =>
              hpFromTorque
                (ModeFirst.finalTorqueAt
                  ⟨.methanolRace, cy, bo, st, dl, crr, rl, rs, ve, sp, pl, b, .na, vt, vc⟩
                  (createRpmRange rl rs 1000) r) (r : ℝ)),
            bmepBarArr := (createRpmRange rl rs 1000).map (fun r =>
              ModeFirst.bmepPsiFromTorque
                (ModeFirst.finalTorqueAt
                  ⟨.methanolRace, cy, bo, st, dl, crr, rl, rs, ve, sp, pl, b, .na, vt, vc⟩
                  (createRpmRange rl rs 1000) r) dl * 0.0689476),
            bmepRefBar := 18,
            fuelType := .methanol,
            inductionType := .na } := fun _ => rfl
    rw [key b1, key b2]
    have h1 := List.map_congr_left
      (fun a (_ : a ∈ createRpmRange rl rs 1000) => hpt (createRpmRange rl rs 1000) a)
    rw [h1]
    have h2 : ((createRpmRange rl rs 1000).map (fun r =>
        hpFromTorque
          (ModeFirst.finalTorqueAt
            ⟨.methanolRace, cy, bo, st, dl, crr, rl, rs, ve, sp, pl, b1, .na, vt, vc⟩
            (createRpmRange rl rs 1000) r) (r : ℝ))) =
        ((createRpmRange rl rs 1000).map (fun r =>
        hpFromTorque
          (ModeFirst.finalTorqueAt
            ⟨.methanolRace, cy, bo, st, dl, crr, rl, rs, ve, sp, pl, b2, .na, vt, vc⟩
            (createRpmRange rl rs 1000) r) (r : ℝ))) :=
      List.map_congr_left (fun a _ => by rw [hpt])
    rw [h2]
    have h3 : ((createRpmRange rl rs 1000).map (fun r =>
        ModeFirst.bmepPsiFromTorque
          (ModeFirst.finalTorqueAt
            ⟨.methanolRace, cy, bo, st, dl, crr, rl, rs, ve, sp, pl, b1, .na, vt, vc⟩
            (createRpmRange rl rs 1000) r) dl * 0.0689476)) =
        ((createRpmRange rl rs 1000).map (fun r =>
        ModeFirst.bmepPsiFromTorque
          (ModeFirst.finalTorqueAt
            ⟨.methanolRace, cy, bo, st, dl, crr, rl, rs, ve, sp, pl, b2, .na, vt, vc⟩
            (createRpmRange rl rs 1000) r) dl * 0.0689476)) :=
      List.map_congr_left (fun a _ => by rw [hpt])
    rw [h3]

theorem v41_boost_independent (cfg : V41.Config) (b1 b2 : ℝ)
    (hf : cfg.fuelType = .gasoline) (hi : cfg.inductionType = .na) :
    V41.simulateEngine { cfg with boostPsi := b1 } =
      V41.simulateEngine { cfg with boostPsi := b2 } := by
  obtain ⟨cy, bo, st, dl, crr, rl, rs, ve, sp, pl, ft, it, bp, vt, vc⟩ := cfg
  dsimp only at hf hi
  subst hf
  subst hi
  rfl

/-- **C3** (amended).  The v3 driver forces the effective boost to 0 for
every naturally aspirated configuration (any fuel) and its entire output is
independent of the boost input; the mode-first resolver forces
`effBoostPsi = 0` for NA gasoline and the mode-first driver's output is
independent of `boostPsi` whenever the resolved induction is NA; the V4.1
NA-gasoline output is likewise independent of `boostPsi` — but the
resolvers do *not* return 0 effective boost for every NA configuration
(see the counterexample). -/
theorem claim_C3 :
    (∀ cr b : ℝ,
      (ModeFirst.getEffectiveBoostAndCompFactor .gasoline .na cr b).effBoostPsi = 0) ∧
    (∀ (p : V3.V3Params) (b1 b2 : ℝ), p.inductionType = .na →
      V3.simulateEngine { p with boostPsiInput := b1 } =
        V3.simulateEngine { p with boostPsiInput := b2 }) ∧
    (∀ (cfg : ModeFirst.Config) (b1 b2 : ℝ), ModeFirst.resolvedInduction cfg = .na →
      ModeFirst.simulateEngine { cfg with boostPsi := b1 } =
        ModeFirst.simulateEngine { cfg with boostPsi := b2 }) ∧
    (∀ (cfg : V41.Config) (b1 b2 : ℝ), cfg.fuelType = .gasoline →
      cfg.inductionType = .na →
      V41.simulateEngine { cfg with boostPsi := b1 } =
        V41.simulateEngine { cfg with boostPsi := b2 }) :=
  ⟨mf_gasolineNa_effBoost_zero, v3_boost_independent, mf_boost_independent,
    v41_boost_independent⟩

/-- **C3 counterexample**: the V4.1 resolver leaves the requested boost
untouched even for naturally aspirated gasoline — at compression ratio 10.8
and requested boost 7 psi it returns `effBoostPsi = 7 ≠ 0` (and likewise the
mode-first resolver passes boost through for NA methanol). -/
theorem claim_C3_counterexample :
    (V41.getCompressionBoostScaling .gasoline .na 10.8 7).effBoostPsi = 7 ∧
      (ModeFirst.getEffectiveBoostAndCompFactor .methanol .na 13.5 5).effBoostPsi = 5 ∧
      (7 : ℝ) ≠ 0 := by
  refine ⟨rfl, rfl, by norm_num⟩

theorem claim_C3_witness :
    V3.simulateEngine
        ⟨4, 87, 99, 7500, 250, 95, 3, 25, .gasoline, .na, 0, 11, 4, .dohc⟩ =
      V3.simulateEngine
        ⟨4, 87, 99, 7500, 250, 95, 3, 25, .gasoline, .na, 18, 11, 4, .dohc⟩ :=
  claim_C3.2.1 ⟨4, 87, 99, 7500, 250, 95, 3, 25, .gasoline, .na, 0, 11, 4, .dohc⟩ 0 18 rfl

/-! ### C1 — horsepower/torque consistency -/

theorem hp_torque_cancel (n r : ℝ) (hr : 0 < r) : |n - n * 5252 / r * r / 5252| < 1e-6 := by
  have h : n * 5252 / r * r / 5252 = n := by field_simp
  rw [h, sub_self, abs_zero]
  norm_num

theorem v3Point_torque_eq (p : V3.V3Params) (rpm : ℕ) :
    (V3.v3Point p rpm).torque =
      if (0 : ℝ) < (rpm : ℝ) then (V3.v3Point p rpm).hp * 5252 / (rpm : ℝ) else 0 := rfl

theorem v3_hp_torque_identity (p : V3.V3Params) (pt : V3.V3Point)
    (hpt : pt ∈ (V3.simulateEngine p).points) :
    |pt.hp - pt.torque * (pt.rpm : ℝ) / 5252| < 1e-6 := by
  have hpts : (V3.simulateEngine p).points =
      (v3Grid p.redlineRpm p.rpmStep).map (V3.v3Point p) := rfl
  rw [hpts] at hpt
  rcases List.mem_map.1 hpt with ⟨r, hr, rfl⟩
  have h1000 : 1000 ≤ r := mem_rpmLoop_ge _ _ _ _ _ hr
  have hrpos : (0 : ℝ) < (r : ℝ) := by
    have h0 : 0 < r := by omega
    exact_mod_cast h0
  have hrpmfield : ((V3.v3Point p r).rpm : ℝ) = (r : ℝ) := rfl
  rw [hrpmfield, v3Point_torque_eq, if_pos hrpos]
  exact hp_torque_cancel _ _ hrpos

theorem mf_hp_torque_identity (cfg : ModeFirst.Config) (i : ℕ)
    (h : i < ((ModeFirst.simulateEngine cfg).rpm).length) :
    |((ModeFirst.simulateEngine cfg).hp).getD i 0 -
        ((ModeFirst.simulateEngine cfg).torque).getD i 0 *
          ((((ModeFirst.simulateEngine cfg).rpm).getD i 0 : ℕ) : ℝ) / 5252| < 1e-6 := by
  have hrpm : (ModeFirst.simulateEngine cfg).rpm =
      createRpmRange cfg.redline cfg.rpmStep 1000 := rfl
  have htq : (ModeFirst.simulateEngine cfg).torque =
      (createRpmRange cfg.redline cfg.rpmStep 1000).map
        (ModeFirst.finalTorqueAt cfg (createRpmRange cfg.redline cfg.rpmStep 1000)) := rfl
  have hhp : (ModeFirst.simulateEngine cfg).hp =
      (createRpmRange cfg.redline cfg.rpmStep 1000).map (fun r =>
        hpFromTorque
          (ModeFirst.finalTorqueAt cfg (createRpmRange cfg.redline cfg.rpmStep 1000) r)
          (r : ℝ)) := rfl
  have hlen : i < (createRpmRange cfg.redline cfg.rpmStep 1000).length := by
    rw [hrpm] at h
    exact h
  rw [hrpm, htq, hhp, List.getD_eq_getElem _ _ (by simpa using hlen),
    List.getD_eq_getElem _ _ (by simpa using hlen), List.getD_eq_getElem _ _ hlen,
    List.getElem_map, List.getElem_map]
  simp only [hpFromTorque, sub_self, abs_zero]
  norm_num

theorem v41_hp_torque_identity (cfg : V41.Config) (i : ℕ)
    (h : i < ((V41.simulateEngine cfg).rpm).length) :
    |((V41.simulateEngine cfg).hp).getD i 0 -
        ((V41.simulateEngine cfg).torque).getD i 0 *
          ((((V41.simulateEngine cfg).rpm).getD i 0 : ℕ) : ℝ) / 5252| < 1e-6 := by
  have hrpm : (V41.simulateEngine cfg).rpm =
      createRpmRange cfg.redline cfg.rpmStep 1000 := rfl
  have htq : (V41.simulateEngine cfg).torque =
      (createRpmRange cfg.redline cfg.rpmStep 1000).map
        (V41.finalTorqueAt cfg (createRpmRange cfg.redline cfg.rpmStep 1000)) := rfl
  have hhp : (V41.simulateEngine cfg).hp =
      (createRpmRange cfg.redline cfg.rpmStep 1000).map (fun r =>
        hpFromTorque
          (V41.finalTorqueAt cfg (createRpmRange cfg.redline cfg.rpmStep 1000) r)
          (r : ℝ)) := rfl
  have hlen : i < (createRpmRange cfg.redline cfg.rpmStep 1000).length := by
    rw [hrpm] at h
    exact h
  rw [hrpm, htq, hhp, List.getD_eq_getElem _ _ (by simpa using hlen),
    List.getD_eq_getElem _ _ (by simpa using hlen), List.getD_eq_getElem _ _ hlen,
    List.getElem_map, List.getElem_map]
  simp only [hpFromTorque, sub_self, abs_zero]
  norm_num

/-- **C1** (confirmed).  In the v3 driver every output point satisfies
`|hp − torque·rpm/5252| < 1e-6` (there torque is derived from horsepower,
`torque = hp·5252/rpm`, so the identity is exact); in the mode-first and
V4.1 drivers every output index satisfies the same bound because `hp` is
computed as `hpFromTorque(torque, rpm) = torque·rpm/5252` — never
independently of torque. -/
theorem claim_C1 :
    (∀ (p : V3.V3Params) (pt : V3.V3Point), pt ∈ (V3.simulateEngine p).points →
      |pt.hp - pt.torque * (pt.rpm : ℝ) / 5252| < 1e-6) ∧
    (∀ (cfg : ModeFirst.Config) (i : ℕ),
      i < ((ModeFirst.simulateEngine cfg).rpm).length →
      |((ModeFirst.simulateEngine cfg).hp).getD i 0 -
          ((ModeFirst.simulateEngine cfg).torque).getD i 0 *
            ((((ModeFirst.simulateEngine cfg).rpm).getD i 0 : ℕ) : ℝ) / 5252| < 1e-6) ∧
    (∀ (cfg : V41.Config) (i : ℕ), i < ((V41.simulateEngine cfg).rpm).length →
      |((V41.simulateEngine cfg).hp).getD i 0 -
          ((V41.simulateEngine cfg).torque).getD i 0 *
            ((((V41.simulateEngine cfg).rpm).getD i 0 : ℕ) : ℝ) / 5252| < 1e-6) :=
  ⟨v3_hp_torque_identity, mf_hp_torque_identity, v41_hp_torque_identity⟩

theorem claim_C1_witness :
    |(V3.v3Point ⟨4, 87, 99, 7500, 250, 95, 3, 25, .gasoline, .na, 0, 11, 4, .dohc⟩ 1000).hp -
        (V3.v3Point ⟨4, 87, 99, 7500, 250, 95, 3, 25, .gasoline, .na, 0, 11, 4, .dohc⟩ 1000).torque *
          (((V3.v3Point ⟨4, 87, 99, 7500, 250, 95, 3, 25, .gasoline, .na, 0, 11, 4, .dohc⟩
            1000).rpm : ℕ) : ℝ) / 5252| < 1e-6 :=
  claim_C1.1 ⟨4, 87, 99, 7500, 250, 95, 3, 25, .gasoline, .na, 0, 11, 4, .dohc⟩ _
    (List.mem_map_of_mem _ (by decide : (1000 : ℕ) ∈ v3Grid 7500 250))

/-! ### C8 — piston-speed-limit monotonicity: shared facts -/

theorem rise01_nonneg (lb c x e : ℝ) (hlb : 0 ≤ lb) (hc : 0 ≤ c) :
    0 ≤ lb + c * pow01 x e := by
  nlinarith [pow01_nonneg x e]

theorem fall01_nonneg (d x e : ℝ) (he : 0 ≤ e) (hd : 0 ≤ d) (hd1 : d ≤ 1) :
    0 ≤ 1 - d * pow01 x e := by
  nlinarith [pow01_le_one x e he, pow01_nonneg x e]

theorem linear01_nonneg (a b x : ℝ) (ha : 0 ≤ a) (hb : 0 ≤ b) :
    0 ≤ a + b * clamp01 x := by
  nlinarith [clamp01_nonneg x]

theorem const_sub01_nonneg (a d x : ℝ) (hd : 0 ≤ d) (hda : d ≤ a) :
    0 ≤ a - d * clamp01 x := by
  nlinarith [clamp01_le_one x, clamp01_nonneg x]

theorem const_sub_pow01_nonneg (a d x e : ℝ) (he : 0 ≤ e) (hd : 0 ≤ d) (hda : d ≤ a) :
    0 ≤ a - d * pow01 x e := by
  nlinarith [pow01_le_one x e he, pow01_nonneg x e]

/-- Monotonicity (in the limit) of the shared `script.js` piston-speed
penalty shape `if (limit > 0 && ps > limit) max(0.6, 1 - c*((ps-limit)/limit))
else 1` (`c = 0.6` in the mode-first driver, `c = 0.5` in V4.1). -/
theorem penalty_mono (ps c L1 L2 : ℝ) (hL1 : 0 < L1) (h12 : L1 ≤ L2) (hc : 0 ≤ c) :
    (if 0 < L1 ∧ L1 < ps then max 0.6 (1 - c * ((ps - L1) / L1)) else 1) ≤
      (if 0 < L2 ∧ L2 < ps then max 0.6 (1 - c * ((ps - L2) / L2)) else 1) := by
  have hL2 : 0 < L2 := lt_of_lt_of_le hL1 h12
  by_cases h1 : L1 < ps
  · rw [if_pos ⟨hL1, h1⟩]
    by_cases h2 : L2 < ps
    · rw [if_pos ⟨hL2, h2⟩]
      apply max_le_max (le_refl (0.6 : ℝ))
      have hps : 0 < ps := lt_trans hL1 h1
      have hdiv : (ps - L2) / L2 ≤ (ps - L1) / L1 := by
        rw [div_le_div_iff₀ hL2 hL1]
        nlinarith
      nlinarith [mul_le_mul_of_nonneg_left hdiv hc]
    · rw [if_neg (fun hx => h2 hx.2)]
      apply max_le (by norm_num)
      have hdnn : 0 ≤ (ps - L1) / L1 := div_nonneg (by linarith) (le_of_lt hL1)
      nlinarith
  · rw [if_neg (fun hx => h1 hx.2)]
    rw [if_neg (fun hx => h1 (lt_of_le_of_lt h12 hx.2))]

theorem net_mono (K g1 g2 : ℝ) (h : g1 ≤ g2) :
    max (g1 - min K (g1 * 0.85)) 0 ≤ max (g2 - min K (g2 * 0.85)) 0 := by
  apply max_le_max _ (le_refl (0 : ℝ))
  rcases min_cases K (g1 * 0.85) with ⟨e1, l1⟩ | ⟨e1, l1⟩ <;>
    rcases min_cases K (g2 * 0.85) with ⟨e2, l2⟩ | ⟨e2, l2⟩ <;> rw [e1, e2] <;> linarith

theorem computeDisplacementL_nonneg (c b s : ℝ) (hc : 0 ≤ c) (hs : 0 ≤ s) :
    0 ≤ computeDisplacementL c b s := by
  show 0 ≤ Real.pi / 4 * (b / 10) * (b / 10) * (s / 10) * c / 1000
  have h1 : 0 ≤ Real.pi / 4 * (b / 10) * (b / 10) := by
    nlinarith [mul_self_nonneg (b / 10), Real.pi_pos]
  have h2 : 0 ≤ Real.pi / 4 * (b / 10) * (b / 10) * (s / 10) :=
    mul_nonneg h1 (by linarith)
  exact div_nonneg (mul_nonneg h2 hc) (by norm_num)

/-! ### C8 — mode-first driver -/

theorem torqueFromBmepBar_nonneg (b d : ℝ) (hb : 0 ≤ b) :
    0 ≤ ModeFirst.torqueFromBmepBar b d := by
  unfold ModeFirst.torqueFromBmepBar
  split
  · exact le_refl 0
  · have hd : 0 < d := lt_of_not_le (by assumption)
    have hpi : (0 : ℝ) < 4 * Real.pi := by positivity
    have h1 : 0 ≤ b * 100000 * (d / 1000) :=
      mul_nonneg (mul_nonneg hb (by norm_num)) (by positivity)
    exact div_nonneg (div_nonneg h1 (le_of_lt hpi)) (by norm_num)

theorem techFactorNa_pos (vt : ValvetrainType) (valves : ℕ) :
    0 < ModeFirst.techFactorNa vt valves := by
  unfold ModeFirst.techFactorNa
  refine mul_pos (mul_pos (mul_pos (mul_pos (mul_pos one_pos ?_) ?_) ?_) ?_) ?_ <;>
    exact ite_pos (by norm_num) (by norm_num)

theorem techFactorBoosted_pos (vt : ValvetrainType) (valves : ℕ) :
    0 < ModeFirst.techFactorBoosted vt valves := by
  unfold ModeFirst.techFactorBoosted
  refine mul_pos (mul_pos (mul_pos (mul_pos one_pos ?_) ?_) ?_) ?_ <;>
    exact ite_pos (by norm_num) (by norm_num)

theorem sizeFactorOver_nonneg (th fl d s : ℝ) (hfl : 0 ≤ fl) :
    0 ≤ ModeFirst.sizeFactorOver th fl d s := by
  unfold ModeFirst.sizeFactorOver
  split
  · exact le_trans hfl (le_max_left _ _)
  · exact zero_le_one

theorem veFactor_nonneg (v : ℝ) (hv : 0 ≤ v) : 0 ≤ v / 100 / 0.95 :=
  div_nonneg (div_nonneg hv (by norm_num)) (by norm_num)

theorem mf_effBoost_nonneg (fuel : FuelType) (ind : InductionType) (cr b : ℝ) (hb : 0 ≤ b) :
    0 ≤ (ModeFirst.getEffectiveBoostAndCompFactor fuel ind cr b).effBoostPsi := by
  cases fuel <;> dsimp only [ModeFirst.getEffectiveBoostAndCompFactor]
  · split
    · exact le_refl 0
    · exact le_min hb (le_max_left 0 _)
  · exact hb
  · exact hb

theorem gasNaPeakBmep_nonneg (cfg : ModeFirst.SimCfg) (ref : ℝ) (href : 0 ≤ ref)
    (hve : 0 ≤ cfg.vePeak) : 0 ≤ ModeFirst.gasNaPeakBmep cfg ref := by
  unfold ModeFirst.gasNaPeakBmep
  refine mul_nonneg (mul_nonneg (mul_nonneg (mul_nonneg href
    (le_of_lt (techFactorNa_pos _ _))) (sizeFactorOver_nonneg _ _ _ _ (by norm_num)))
    (veFactor_nonneg _ hve)) ?_
  exact le_trans (by norm_num) (le_max_left 0.9 _)

theorem gasTurboPeakBmep_nonneg (cfg : ModeFirst.SimCfg) (e c : ℝ) (hve : 0 ≤ cfg.vePeak)
    (he : 0 ≤ e) (hc : 0 ≤ c) : 0 ≤ ModeFirst.gasTurboPeakBmep cfg e c := by
  unfold ModeFirst.gasTurboPeakBmep
  refine mul_nonneg (mul_nonneg (mul_nonneg (mul_nonneg ?_
    (le_of_lt (techFactorBoosted_pos _ _))) (sizeFactorOver_nonneg _ _ _ _ (by norm_num)))
    (veFactor_nonneg _ hve)) hc
  exact le_min (by nlinarith) (by norm_num)

theorem gasScPeakBmep_nonneg (cfg : ModeFirst.SimCfg) (e c : ℝ) (hve : 0 ≤ cfg.vePeak)
    (he : 0 ≤ e) (hc : 0 ≤ c) : 0 ≤ ModeFirst.gasScPeakBmep cfg e c := by
  unfold ModeFirst.gasScPeakBmep
  refine mul_nonneg (mul_nonneg (mul_nonneg (mul_nonneg ?_
    (le_of_lt (techFactorBoosted_pos _ _))) (sizeFactorOver_nonneg _ _ _ _ (by norm_num)))
    (veFactor_nonneg _ hve)) hc
  exact le_min (by nlinarith) (by norm_num)

theorem dieselPeakBmep_nonneg (cfg : ModeFirst.SimCfg) (e c : ℝ) (hve : 0 ≤ cfg.vePeak)
    (he : 0 ≤ e) (hc : 0 ≤ c) : 0 ≤ ModeFirst.dieselPeakBmep cfg e c := by
  unfold ModeFirst.dieselPeakBmep
  refine mul_nonneg (mul_nonneg (mul_nonneg (mul_nonneg ?_ (veFactor_nonneg _ hve))
    (sizeFactorOver_nonneg _ _ _ _ (by norm_num))) ?_) hc
  · refine le_min ?_ (ite_nonneg (by norm_num) (by norm_num))
    have : 0 ≤ (if (8 : ℝ) ≤ cfg.displacementL then (0.45 : ℝ) else 0.50) * e :=
      mul_nonneg (ite_nonneg (by norm_num) (by norm_num)) he
    linarith
  · exact le_trans (by norm_num) (le_max_left 0.9 _)

theorem methanolPeakBmep_nonneg (cfg : ModeFirst.SimCfg) (e c : ℝ) (ind : InductionType)
    (hve : 0 ≤ cfg.vePeak) (he : 0 ≤ e) (hc : 0 ≤ c) :
    0 ≤ ModeFirst.methanolPeakBmep cfg e c ind := by
  unfold ModeFirst.methanolPeakBmep
  refine mul_nonneg (mul_nonneg (mul_nonneg (mul_nonneg ?_ (veFactor_nonneg _ hve))
    (sizeFactorOver_nonneg _ _ _ _ (by norm_num))) ?_) hc
  · refine le_min (ite_nonneg (by nlinarith) (by norm_num))
      (ite_nonneg (by norm_num) (by norm_num))
  · exact le_trans (by norm_num) (le_max_left 0.9 _)

theorem gasNaFrac_nonneg (cfg : ModeFirst.SimCfg) (a b x : ℝ) :
    0 ≤ ModeFirst.gasNaFrac cfg a b x := by
  unfold ModeFirst.gasNaFrac
  dsimp only
  split
  · exact rise01_nonneg _ _ _ _ (by norm_num) (by norm_num)
  · refine fall01_nonneg _ _ _ ?_ (by norm_num) (by norm_num)
    split <;> norm_num

theorem gasTurboFrac_nonneg (rl : ℕ) (a b x : ℝ) :
    0 ≤ ModeFirst.gasTurboFrac rl a b x := by
  unfold ModeFirst.gasTurboFrac
  dsimp only
  split
  · exact rise01_nonneg _ _ _ _ (by norm_num) (by norm_num)
  · split
    · exact linear01_nonneg _ _ _ (by norm_num) (by norm_num)
    · split
      · norm_num
      · exact fall01_nonneg _ _ _ (by norm_num) (by norm_num) (by norm_num)

theorem gasScFrac_nonneg (a b x : ℝ) : 0 ≤ ModeFirst.gasScFrac a b x := by
  unfold ModeFirst.gasScFrac
  dsimp only
  split
  · exact linear01_nonneg _ _ _ (by norm_num) (by norm_num)
  · exact const_sub_pow01_nonneg _ _ _ _ (by norm_num) (by norm_num) (by norm_num)

theorem dieselFrac_nonneg (d : ℝ) (rl : ℕ) (a b x : ℝ) :
    0 ≤ ModeFirst.dieselFrac d rl a b x := by
  unfold ModeFirst.dieselFrac
  dsimp only
  split <;> split <;> try split
  all_goals first
    | exact rise01_nonneg _ _ _ _ (by norm_num) (by norm_num)
    | exact const_sub01_nonneg _ _ _ (by norm_num) (by norm_num)
    | exact const_sub_pow01_nonneg _ _ _ _ (by norm_num) (by norm_num) (by norm_num)

theorem methanolFrac_nonneg (rl : ℕ) (a b x : ℝ) :
    0 ≤ ModeFirst.methanolFrac rl a b x := by
  unfold ModeFirst.methanolFrac
  dsimp only
  split
  · exact rise01_nonneg _ _ _ _ (by norm_num) (by norm_num)
  · exact fall01_nonneg _ _ _ (by norm_num) (by norm_num) (by norm_num)

theorem mf_baseBmep_nonneg (cfg : ModeFirst.Config) (rpmRange : List ℕ) (rpm : ℕ)
    (hve : 0 ≤ cfg.vePeak) (hb : 0 ≤ cfg.boostPsi) :
    0 ≤ ModeFirst.baseBmepAt cfg rpmRange rpm := by
  obtain ⟨em, cy, bo, st, dl, crr, rl, rs, ve, sp, pl, bp, mi, vt, vc⟩ := cfg
  dsimp only at hve hb
  have hcomp : ∀ f i, 0 ≤ (ModeFirst.getEffectiveBoostAndCompFactor f i crr bp).compFactor :=
    fun f i => le_trans (by norm_num) (mf_compFactor_bounds f i crr bp).1
  have heff : ∀ f i, 0 ≤ (ModeFirst.getEffectiveBoostAndCompFactor f i crr bp).effBoostPsi :=
    fun f i => mf_effBoost_nonneg f i crr bp hb
  cases em <;>
    dsimp only [ModeFirst.baseBmepAt, ModeFirst.getModeConfig, ModeFirst.resolvedInduction,
      ModeFirst.simCfgOf]
  · exact mul_nonneg (gasNaPeakBmep_nonneg _ _ (by norm_num) hve) (gasNaFrac_nonneg _ _ _ _)
  · exact mul_nonneg (gasTurboPeakBmep_nonneg _ _ _ hve (heff _ _) (hcomp _ _))
      (gasTurboFrac_nonneg _ _ _ _)
  · exact mul_nonneg (gasScPeakBmep_nonneg _ _ _ hve (heff _ _) (hcomp _ _))
      (gasScFrac_nonneg _ _ _)
  · exact mul_nonneg (dieselPeakBmep_nonneg _ _ _ hve (heff _ _) (hcomp _ _))
      (dieselFrac_nonneg _ _ _ _ _)
  · exact mul_nonneg (methanolPeakBmep_nonneg _ _ _ _ hve (heff _ _) (hcomp _ _))
      (methanolFrac_nonneg _ _ _ _)

theorem mf_psFactor_mono (cfg : ModeFirst.Config) (rpm : ℕ) (L1 L2 : ℝ)
    (h1 : 0 < L1) (h12 : L1 ≤ L2) :
    ModeFirst.psFactor { cfg with pistonSpeedLimit := L1 } rpm ≤
      ModeFirst.psFactor { cfg with pistonSpeedLimit := L2 } rpm := by
  obtain ⟨em, cy, bo, st, dl, crr, rl, rs, ve, sp, pl, bp, mi, vt, vc⟩ := cfg
  exact penalty_mono _ _ L1 L2 h1 h12 (by norm_num)

theorem mf_torque_mono (cfg : ModeFirst.Config) (rpmRange : List ℕ) (rpm : ℕ) (L1 L2 : ℝ)
    (h1 : 0 < L1) (h12 : L1 ≤ L2) (hve : 0 ≤ cfg.vePeak) (hb : 0 ≤ cfg.boostPsi) :
    ModeFirst.finalTorqueAt { cfg with pistonSpeedLimit := L1 } rpmRange rpm ≤
      ModeFirst.finalTorqueAt { cfg with pistonSpeedLimit := L2 } rpmRange rpm := by
  have hbase_inv : ModeFirst.baseTorqueAt { cfg with pistonSpeedLimit := L1 } rpmRange rpm =
      ModeFirst.baseTorqueAt { cfg with pistonSpeedLimit := L2 } rpmRange rpm := rfl
  have hbase_nonneg : 0 ≤ ModeFirst.baseTorqueAt { cfg with pistonSpeedLimit := L2 } rpmRange rpm :=
    torqueFromBmepBar_nonneg _ _ (mf_baseBmep_nonneg _ rpmRange rpm hve hb)
  unfold ModeFirst.finalTorqueAt
  rw [hbase_inv]
  exact mul_le_mul_of_nonneg_left (mf_psFactor_mono cfg rpm L1 L2 h1 h12) hbase_nonneg

/-! ### C8 — v3 driver -/

theorem v3_pistonFactor_mono (mps L1 L2 : ℝ) (h12 : L1 ≤ L2) :
    V3.getPistonSpeedFactor mps L1 ≤ V3.getPistonSpeedFactor mps L2 := by
  unfold V3.getPistonSpeedFactor
  by_cases hA : mps ≤ L1
  · rw [if_pos hA, if_pos (le_trans hA h12)]
  · rw [if_neg hA]
    by_cases hB : mps ≤ L2
    · rw [if_pos hB]
      exact clamp_le_hi _ _ _
    · rw [if_neg hB]
      exact clamp_mono _ _ _ _ (by linarith)

theorem v3_pistonFactor_nonneg (mps L : ℝ) : 0 ≤ V3.getPistonSpeedFactor mps L := by
  unfold V3.getPistonSpeedFactor
  split
  · norm_num
  · exact le_trans (by norm_num) (lo_le_clamp _ _ _ (by norm_num))

theorem v3_fuelShape_nonneg (f : FuelType) (rpm rl : ℝ) :
    0 ≤ V3.getFuelShapeFactor f rpm rl := by
  cases f <;> dsimp only [V3.getFuelShapeFactor]
  · exact zero_le_one
  · exact le_trans (by norm_num) (lo_le_clamp _ _ _ (by norm_num))
  · exact le_trans (by norm_num) (lo_le_clamp _ _ _ (by norm_num))

theorem v3_inductionShape_nonneg (it : InductionType) (rpm rl : ℝ) :
    0 ≤ V3.getInductionShapeFactor it rpm rl := by
  cases it <;> dsimp only [V3.getInductionShapeFactor]
  · exact zero_le_one
  · split
    · norm_num
    · split
      · norm_num
      · rename_i h1 h2
        have hu : 0 ≤ (clamp (rpm / rl) 0 1 - 0.35) / (0.7 - 0.35) :=
          div_nonneg (by push_neg at h1; linarith) (by norm_num)
        nlinarith
  · exact le_trans (by norm_num) (lo_le_clamp _ _ _ (by norm_num))

theorem v3_valvetrainShape_nonneg (vt : ValvetrainType) (v : ℕ) (rpm rl : ℝ) :
    0 ≤ V3.getValvetrainShapeFactor vt v rpm rl := by
  unfold V3.getValvetrainShapeFactor
  exact le_trans (by norm_num) (lo_le_clamp _ _ _ (by norm_num))

theorem v3_sizeEff_nonneg (d s : ℝ) : 0 ≤ V3.getSizeEfficiency d s := by
  unfold V3.getSizeEfficiency
  exact le_trans (by norm_num) (lo_le_clamp _ _ _ (by norm_num))

theorem v3_knockFactor_nonneg (cr pr L : ℝ) : 0 ≤ V3.getKnockFactor cr pr L := by
  unfold V3.getKnockFactor
  dsimp only
  split
  · norm_num
  · exact le_trans (by norm_num) (lo_le_clamp _ _ _ (by norm_num))

/-- Monotonicity of the v3 per-point pipeline in the piston factor, stated
on the exact (zeta-expanded) shape of `v3Point`: effective VE (clamped
product of the eight factors), gross hp, friction/parasitic losses capped
at 85% of gross, the low-rpm floor, and the hp→torque division. -/
theorem v3_net_mono (D PR K RAW SZ FS IS VS CF KF FRIC PARA FLOOR R PF1 PF2 : ℝ)
    (hD : 0 ≤ D) (hPR : 0 ≤ PR) (hK : 0 ≤ K) (hRAW : 0 ≤ RAW) (hSZ : 0 ≤ SZ)
    (hFS : 0 ≤ FS) (hIS : 0 ≤ IS) (hVS : 0 ≤ VS) (hCF : 0 ≤ CF) (hKF : 0 ≤ KF)
    (hPF : PF1 ≤ PF2) :
    (if (0 : ℝ) < R then
      (if max (13.5 * D * PR * clamp (RAW * SZ * PF1 * FS * IS * VS * CF * KF) 0 1.25 * K -
            min (FRIC + PARA)
              (13.5 * D * PR * clamp (RAW * SZ * PF1 * FS * IS * VS * CF * KF) 0 1.25 * K *
                0.85)) 0 < FLOOR then FLOOR
        else
          max (13.5 * D * PR * clamp (RAW * SZ * PF1 * FS * IS * VS * CF * KF) 0 1.25 * K -
            min (FRIC + PARA)
              (13.5 * D * PR * clamp (RAW * SZ * PF1 * FS * IS * VS * CF * KF) 0 1.25 * K *
                0.85)) 0) * 5252 / R
    else 0) ≤
    (if (0 : ℝ) < R then
      (if max (13.5 * D * PR * clamp (RAW * SZ * PF2 * FS * IS * VS * CF * KF) 0 1.25 * K -
            min (FRIC + PARA)
              (13.5 * D * PR * clamp (RAW * SZ * PF2 * FS * IS * VS * CF * KF) 0 1.25 * K *
                0.85)) 0 < FLOOR then FLOOR
        else
          max (13.5 * D * PR * clamp (RAW * SZ * PF2 * FS * IS * VS * CF * KF) 0 1.25 * K -
            min (FRIC + PARA)
              (13.5 * D * PR * clamp (RAW * SZ * PF2 * FS * IS * VS * CF * KF) 0 1.25 * K *
                0.85)) 0) * 5252 / R
    else 0) := by
  have hprod : RAW * SZ * PF1 * FS * IS * VS * CF * KF ≤
      RAW * SZ * PF2 * FS * IS * VS * CF * KF := by
    have h1 : RAW * SZ * PF1 ≤ RAW * SZ * PF2 :=
      mul_le_mul_of_nonneg_left hPF (mul_nonneg hRAW hSZ)
    exact mul_le_mul_of_nonneg_right (mul_le_mul_of_nonneg_right
      (mul_le_mul_of_nonneg_right (mul_le_mul_of_nonneg_right
        (mul_le_mul_of_nonneg_right h1 hFS) hIS) hVS) hCF) hKF
  have hgross : 13.5 * D * PR * clamp (RAW * SZ * PF1 * FS * IS * VS * CF * KF) 0 1.25 * K ≤
      13.5 * D * PR * clamp (RAW * SZ * PF2 * FS * IS * VS * CF * KF) 0 1.25 * K := by
    refine mul_le_mul_of_nonneg_right ?_ hK
    refine mul_le_mul_of_nonneg_left (clamp_mono _ _ _ _ hprod) ?_
    exact mul_nonneg (mul_nonneg (by norm_num) hD) hPR
  have hnet := net_mono (FRIC + PARA) _ _ hgross
  rw [ite_lt_eq_max, ite_lt_eq_max]
  split
  · rename_i hR
    have hmul : (max FLOOR (max (13.5 * D * PR *
        clamp (RAW * SZ * PF1 * FS * IS * VS * CF * KF) 0 1.25 * K -
          min (FRIC + PARA) (13.5 * D * PR *
            clamp (RAW * SZ * PF1 * FS * IS * VS * CF * KF) 0 1.25 * K * 0.85)) 0)) * 5252 ≤
        (max FLOOR (max (13.5 * D * PR *
        clamp (RAW * SZ * PF2 * FS * IS * VS * CF * KF) 0 1.25 * K -
          min (FRIC + PARA) (13.5 * D * PR *
            clamp (RAW * SZ * PF2 * FS * IS * VS * CF * KF) 0 1.25 * K * 0.85)) 0)) * 5252 :=
      mul_le_mul_of_nonneg_right (max_le_max (le_refl FLOOR) hnet) (by norm_num)
    exact (div_le_div_iff_of_pos_right hR).mpr hmul
  · exact le_refl 0

theorem v3_torque_mono (p : V3.V3Params) (rpm : ℕ) (L1 L2 : ℝ)
    (h12 : L1 ≤ L2) (hcy : 0 ≤ p.cylinders) (hst : 0 ≤ p.strokeMm)
    (hve : 0 ≤ p.vePeakPercent) :
    (V3.v3Point { p with pistonSpeedLimit := L1 } rpm).torque ≤
      (V3.v3Point { p with pistonSpeedLimit := L2 } rpm).torque := by
  obtain ⟨cy, bo, st, rl, rs, ve, sp, pl, ft, it, bi, cr, vc, vt⟩ := p
  dsimp only at hcy hst hve
  simp only [V3.v3Point]
  refine v3_net_mono _ _ _ _ _ _ _ _ _ _ _ _ _ _ _ _ ?_ ?_ ?_ ?_ ?_ ?_ ?_ ?_ ?_ ?_ ?_
  · exact computeDisplacementL_nonneg cy bo st hcy hst
  · have hb0 : (0 : ℝ) ≤ if it = InductionType.na then 0 else max 0 bi :=
      ite_nonneg (le_refl 0) (le_max_left 0 bi)
    have := div_nonneg hb0 (by norm_num : (0 : ℝ) ≤ 14.7)
    linarith
  · positivity
  · exact mul_nonneg (div_nonneg hve (by norm_num)) (le_of_lt (Real.exp_pos _))
  · exact v3_sizeEff_nonneg _ _
  · exact v3_fuelShape_nonneg _ _ _
  · exact v3_inductionShape_nonneg _ _ _
  · exact v3_valvetrainShape_nonneg _ _ _ _
  · exact le_trans (by norm_num) (v3_getCompressionFactor_bounds _ _).1
  · exact v3_knockFactor_nonneg _ _ _
  · exact v3_pistonFactor_mono _ _ _ h12

/-! ### C8 — V4.1 driver -/

theorem jsOr_nonneg (x d : ℝ) (hx : 0 ≤ x) (hd : 0 ≤ d) : 0 ≤ V41.jsOr x d := by
  unfold V41.jsOr
  split <;> assumption

theorem v41_effBoost_nonneg (fuel : FuelType) (ind : InductionType) (cr b : ℝ) (hb : 0 ≤ b) :
    0 ≤ (V41.getCompressionBoostScaling fuel ind cr b).effBoostPsi := by
  cases fuel <;> dsimp only [V41.getCompressionBoostScaling]
  · split
    · exact hb
    · split
      · exact le_max_left 0 _
      · exact hb
  · exact hb
  · split
    · exact hb
    · nlinarith

theorem boostFactor_nonneg (e : ℝ) (he : 0 ≤ e) : (0 : ℝ) ≤ 1 + e / 14.7 := by
  have := div_nonneg he (by norm_num : (0 : ℝ) ≤ 14.7)
  linarith

theorem litersToCID_nonneg (d : ℝ) (hd : 0 ≤ d) : 0 ≤ litersToCID d := by
  unfold litersToCID
  nlinarith

theorem naPushrod_nonneg (d : ℝ) (rpm : ℕ) (hd : 0 ≤ d) :
    0 ≤ V41.naPushrodTorqueAt d rpm := by
  have hpeak : (0 : ℝ) ≤ 1.20 * litersToCID d := by nlinarith [litersToCID_nonneg d hd]
  unfold V41.naPushrodTorqueAt
  dsimp only
  split
  · refine mul_nonneg ?_ (le_max_left 0 _)
    split
    · exact mul_nonneg hpeak (Real.rpow_nonneg (by positivity) _)
    · exact mul_nonneg hpeak
        (const_sub_pow01_nonneg 1 0.18 _ _ (by norm_num) (by norm_num) (by norm_num))
  · split
    · exact mul_nonneg hpeak (Real.rpow_nonneg (by positivity) _)
    · exact mul_nonneg hpeak
        (const_sub_pow01_nonneg 1 0.18 _ _ (by norm_num) (by norm_num) (by norm_num))

theorem naOHCBaseTqPerCID_nonneg (vt : ValvetrainType) (v : ℕ) :
    0 ≤ V41.naOHCBaseTqPerCID vt v := by
  unfold V41.naOHCBaseTqPerCID
  split <;> split <;> split <;> norm_num

theorem naOHCPeakTqRpm_pos (vt : ValvetrainType) (v : ℕ) :
    0 < V41.naOHCPeakTqRpm vt v := by
  unfold V41.naOHCPeakTqRpm
  dsimp only
  have hv : (0 : ℝ) ≤ (v : ℝ) := Nat.cast_nonneg v
  split <;> split <;> nlinarith

theorem naOHC_fallDrop_bounds (x : ℝ) :
    0 ≤ max 0.05 (min x 0.12) ∧ max 0.05 (min x 0.12) ≤ (1 : ℝ) := by
  constructor
  · exact le_trans (by norm_num) (le_max_left _ _)
  · exact max_le (by norm_num) (le_trans (min_le_right _ _) (by norm_num))

theorem naOHC_nonneg (d : ℝ) (vt : ValvetrainType) (v : ℕ) (rpm : ℕ) (hd : 0 ≤ d) :
    0 ≤ V41.naOHCTorqueAt d vt v rpm := by
  have hpeak : (0 : ℝ) ≤ V41.naOHCBaseTqPerCID vt v * litersToCID d :=
    mul_nonneg (naOHCBaseTqPerCID_nonneg vt v) (litersToCID_nonneg d hd)
  have hbase : (0 : ℝ) ≤ (rpm : ℝ) / V41.naOHCPeakTqRpm vt v :=
    div_nonneg (Nat.cast_nonneg rpm) (le_of_lt (naOHCPeakTqRpm_pos vt v))
  have hdrop : ∀ dr : ℝ,
      0 ≤ 1 - max 0.05 (min (0.10 - 0.015 * ((v : ℝ) - 2)) 0.12) * clamp01 dr := by
    intro dr
    have h1 := naOHC_fallDrop_bounds (0.10 - 0.015 * ((v : ℝ) - 2))
    have h2 := clamp01_nonneg dr
    have h3 := clamp01_le_one dr
    nlinarith
  unfold V41.naOHCTorqueAt
  dsimp only
  split
  · refine mul_nonneg ?_ (le_max_left 0 _)
    split
    · exact mul_nonneg hpeak (Real.rpow_nonneg hbase _)
    · exact mul_nonneg hpeak (hdrop _)
  · split
    · exact mul_nonneg hpeak (Real.rpow_nonneg hbase _)
    · exact mul_nonneg hpeak (hdrop _)

theorem turboPushrod_nonneg (d e : ℝ) (rpmRange : List ℕ) (rpm : ℕ)
    (hd : 0 ≤ d) (he : 0 ≤ e) :
    0 ≤ V41.turboPushrodTorqueAt d e rpmRange rpm := by
  have hna := naPushrod_nonneg d rpm hd
  have hbf := boostFactor_nonneg e he
  have hbf1 : (0 : ℝ) ≤ 1 + e / 14.7 - 1 := by
    have := div_nonneg he (by norm_num : (0 : ℝ) ≤ 14.7)
    linarith
  unfold V41.turboPushrodTorqueAt
  dsimp only
  split
  · exact hna
  · split
    · rename_i hsp _
      push_neg at hsp
      refine mul_nonneg hna ?_
      have hramp : (0 : ℝ) ≤ ((rpm : ℝ) - 2300) / (3200 - 2300) :=
        div_nonneg (by linarith) (by norm_num)
      nlinarith
    · split
      · exact mul_nonneg hna hbf
      · exact mul_nonneg hna (mul_nonneg hbf
          (const_sub01_nonneg 1 0.45 _ (by norm_num) (by norm_num)))

theorem turboOHC_nonneg (d e : ℝ) (vt : ValvetrainType) (v : ℕ) (rpmRange : List ℕ)
    (rpm : ℕ) (hd : 0 ≤ d) (he : 0 ≤ e) :
    0 ≤ V41.turboOHCTorqueAt d e vt v rpmRange rpm := by
  have hna := naOHC_nonneg d vt v rpm hd
  have hbf := boostFactor_nonneg e he
  have hbf1 : (0 : ℝ) ≤ 1 + e / 14.7 - 1 := by
    have := div_nonneg he (by norm_num : (0 : ℝ) ≤ 14.7)
    linarith
  unfold V41.turboOHCTorqueAt
  dsimp only
  split
  · exact hna
  · split
    · rename_i hsp _
      push_neg at hsp
      refine mul_nonneg hna ?_
      have hramp : (0 : ℝ) ≤ ((rpm : ℝ) - 1500) / (2000 - 1500) :=
        div_nonneg (by linarith) (by norm_num)
      nlinarith
    · split
      · exact mul_nonneg hna hbf
      · exact mul_nonneg (mul_nonneg hna hbf)
          (const_sub01_nonneg 1 0.18 _ (by norm_num) (by norm_num))

theorem supercharged_nonneg (d e : ℝ) (vt : ValvetrainType) (v : ℕ) (rpmRange : List ℕ)
    (rpm : ℕ) (hd : 0 ≤ d) (he : 0 ≤ e) :
    0 ≤ V41.superchargedTorqueAt d e vt v rpmRange rpm := by
  have hna : (0 : ℝ) ≤ if vt = .pushrod then V41.naPushrodTorqueAt d rpm
      else V41.naOHCTorqueAt d vt v rpm := by
    split
    · exact naPushrod_nonneg d rpm hd
    · exact naOHC_nonneg d vt v rpm hd
  have hbf := boostFactor_nonneg e he
  have hbf1 : (0 : ℝ) ≤ 1 + e / 14.7 - 1 := by
    have := div_nonneg he (by norm_num : (0 : ℝ) ≤ 14.7)
    linarith
  have heb : (0 : ℝ) ≤ if (rpm : ℝ) < 1500 then 1 + (1 + e / 14.7 - 1) * ((rpm : ℝ) / 1500)
      else 1 + e / 14.7 := by
    split
    · have : (0 : ℝ) ≤ (1 + e / 14.7 - 1) * ((rpm : ℝ) / 1500) :=
        mul_nonneg hbf1 (by positivity)
      linarith
    · exact hbf
  unfold V41.superchargedTorqueAt
  dsimp only
  split
  · exact mul_nonneg (mul_nonneg hna heb) (le_trans (by norm_num) (le_max_left 0.8 _))
  · exact mul_nonneg hna heb

theorem dieselShape_nonneg (P ptr ps pe rl x : ℝ) (hP : 0 ≤ P) (hptr : 0 < ptr)
    (hps : ps ≤ ptr) (hpe : ps < pe) (hx : 0 ≤ x) :
    0 ≤ (if x ≤ ptr then P * (0.5 + (1 - 0.5) * (x / ptr) ^ (0.7 : ℝ))
      else if x ≤ pe then P * (1 - 0.05 * ((x - ps) / (pe - ps)))
      else P * (1 - 0.4 * pow01 ((x - pe) / (rl - pe)) 1.2)) := by
  split
  · refine mul_nonneg hP ?_
    have := Real.rpow_nonneg (div_nonneg hx (le_of_lt hptr) : (0 : ℝ) ≤ x / ptr) (0.7 : ℝ)
    nlinarith
  · split
    · rename_i hlow hhigh
      push_neg at hlow
      refine mul_nonneg hP ?_
      have hfr : (x - ps) / (pe - ps) ≤ 1 := by
        rw [div_le_one (by linarith)]
        linarith
      have hfr0 : (0 : ℝ) ≤ (x - ps) / (pe - ps) :=
        div_nonneg (by linarith) (by linarith)
      linarith
    · exact mul_nonneg hP
        (const_sub_pow01_nonneg 1 0.4 _ _ (by norm_num) (by norm_num) (by norm_num))

theorem turboDiesel_nonneg (d e : ℝ) (heavy : Bool) (rpm : ℕ) (hd : 0 ≤ d) (he : 0 ≤ e) :
    0 ≤ V41.turboDieselTorqueAt d e heavy rpm := by
  have hbf := boostFactor_nonneg e he
  have hcid := litersToCID_nonneg d hd
  cases heavy
  · have key := dieselShape_nonneg (1.6 * (1 + e / 14.7) * litersToCID d) 1800 1600 2800 3800
      (rpm : ℝ) (mul_nonneg (mul_nonneg (by norm_num) hbf) hcid) (by norm_num) (by norm_num)
      (by norm_num) (Nat.cast_nonneg rpm)
    simpa [V41.turboDieselTorqueAt] using key
  · have key := dieselShape_nonneg (1.8 * (1 + e / 14.7) * litersToCID d) 1500 1500 2100 2500
      (rpm : ℝ) (mul_nonneg (mul_nonneg (by norm_num) hbf) hcid) (by norm_num) (by norm_num)
      (by norm_num) (Nat.cast_nonneg rpm)
    simpa [V41.turboDieselTorqueAt] using key

theorem methanolRacing_nonneg (d e : ℝ) (rpmRange : List ℕ) (rpm : ℕ)
    (hd : 0 ≤ d) (he : 0 ≤ e) :
    0 ≤ V41.methanolRacingTorqueAt d e rpmRange rpm := by
  have hna := naOHC_nonneg d .dohc 4 rpm hd
  have hbf := boostFactor_nonneg e he
  have htq : (0 : ℝ) ≤ V41.naOHCTorqueAt d .dohc 4 rpm * 1.15 * (1 + e / 14.7) :=
    mul_nonneg (mul_nonneg hna (by norm_num)) hbf
  unfold V41.methanolRacingTorqueAt
  dsimp only
  split
  · refine mul_nonneg htq ?_
    have := clamp01_nonneg (((rpm : ℝ) - 0.8 * ((rpmRange.getLastD 0 : ℕ) : ℝ)) /
      (0.2 * ((rpmRange.getLastD 0 : ℕ) : ℝ)))
    nlinarith
  · exact htq

theorem v41_base_nonneg (cfg : V41.Config) (rpmRange : List ℕ) (rpm : ℕ)
    (hd : 0 ≤ cfg.displacementL) (hb : 0 ≤ cfg.boostPsi) :
    0 ≤ V41.baseTorqueAt cfg rpmRange rpm := by
  obtain ⟨cy, bo, st, dl, crr, rl, rs, ve, sp, pl, ft, it, bp, vt, vc⟩ := cfg
  dsimp only at hd hb
  have heff : ∀ f i, 0 ≤ (V41.getCompressionBoostScaling f i crr bp).effBoostPsi :=
    fun f i => v41_effBoost_nonneg f i crr bp hb
  cases ft <;> dsimp only [V41.baseTorqueAt]
  · cases it <;> dsimp only
    · split
      · exact naPushrod_nonneg _ _ hd
      · exact naOHC_nonneg _ _ _ _ hd
    · split
      · exact turboPushrod_nonneg _ _ _ _ hd (jsOr_nonneg _ _ (heff _ _) (by norm_num))
      · exact turboOHC_nonneg _ _ _ _ _ _ hd (jsOr_nonneg _ _ (heff _ _) (by norm_num))
    · exact supercharged_nonneg _ _ _ _ _ _ hd (jsOr_nonneg _ _ (heff _ _) (by norm_num))
  · exact turboDiesel_nonneg _ _ _ _ hd (jsOr_nonneg _ _ (heff _ _) (by norm_num))
  · exact methanolRacing_nonneg _ _ _ _ hd (jsOr_nonneg _ _ (heff _ _) (by norm_num))

theorem v41_pistonScale_mono (cfg : V41.Config) (rpm : ℕ) (L1 L2 : ℝ)
    (h1 : 0 < L1) (h12 : L1 ≤ L2) :
    V41.pistonScale { cfg with pistonSpeedLimit := L1 } rpm ≤
      V41.pistonScale { cfg with pistonSpeedLimit := L2 } rpm := by
  obtain ⟨cy, bo, st, dl, crr, rl, rs, ve, sp, pl, ft, it, bp, vt, vc⟩ := cfg
  exact penalty_mono _ _ L1 L2 h1 h12 (by norm_num)

theorem v41_torque_mono (cfg : V41.Config) (rpmRange : List ℕ) (rpm : ℕ) (L1 L2 : ℝ)
    (h1 : 0 < L1) (h12 : L1 ≤ L2) (hve : 0 ≤ cfg.vePeak) (hb : 0 ≤ cfg.boostPsi)
    (hd : 0 ≤ cfg.displacementL) :
    V41.finalTorqueAt { cfg with pistonSpeedLimit := L1 } rpmRange rpm ≤
      V41.finalTorqueAt { cfg with pistonSpeedLimit := L2 } rpmRange rpm := by
  have hbase_inv : V41.baseTorqueAt { cfg with pistonSpeedLimit := L1 } rpmRange rpm =
      V41.baseTorqueAt { cfg with pistonSpeedLimit := L2 } rpmRange rpm := rfl
  have hbase_nonneg : 0 ≤ V41.baseTorqueAt { cfg with pistonSpeedLimit := L2 } rpmRange rpm :=
    v41_base_nonneg _ rpmRange rpm hd hb
  have hA : 0 ≤ (V41.getCompressionBoostScaling cfg.fuelType cfg.inductionType cfg.compRatio
      cfg.boostPsi).compFactor * V41.veScale cfg * V41.sizeScale cfg := by
    refine mul_nonneg (mul_nonneg ?_ ?_) ?_
    · exact le_trans (by norm_num) (v41_compFactor_bounds _ _ _ _).1
    · exact veFactor_nonneg _ hve
    · unfold V41.sizeScale
      split
      · exact le_trans (by norm_num) (le_max_left _ _)
      · exact zero_le_one
  unfold V41.finalTorqueAt
  rw [hbase_inv]
  refine mul_le_mul_of_nonneg_left ?_ hbase_nonneg
  exact mul_le_mul_of_nonneg_left (v41_pistonScale_mono cfg rpm L1 L2 h1 h12) hA

/-- **C8** (confirmed).  In all three drivers, raising the piston-speed limit
(all other inputs and the rpm fixed, the configuration inside the data
model's domain: non-negative geometry, VE and boost, positive limits) never
decreases the torque at any rpm point: the per-point torque with limit `L2`
dominates the torque with limit `L1 ≤ L2`.  The output torque lists of the
drivers are exactly the maps of these per-point functions over the rpm
grid. -/
theorem claim_C8 :
    (∀ (p : V3.V3Params) (rpm : ℕ) (L1 L2 : ℝ), 0 < L1 → L1 ≤ L2 →
      0 ≤ p.cylinders → 0 ≤ p.strokeMm → 0 ≤ p.vePeakPercent →
      (V3.v3Point { p with pistonSpeedLimit := L1 } rpm).torque ≤
        (V3.v3Point { p with pistonSpeedLimit := L2 } rpm).torque) ∧
    (∀ (cfg : ModeFirst.Config) (rpmRange : List ℕ) (rpm : ℕ) (L1 L2 : ℝ),
      0 < L1 → L1 ≤ L2 → 0 ≤ cfg.vePeak → 0 ≤ cfg.boostPsi →
      ModeFirst.finalTorqueAt { cfg with pistonSpeedLimit := L1 } rpmRange rpm ≤
        ModeFirst.finalTorqueAt { cfg with pistonSpeedLimit := L2 } rpmRange rpm) ∧
    (∀ (cfg : V41.Config) (rpmRange : List ℕ) (rpm : ℕ) (L1 L2 : ℝ),
      0 < L1 → L1 ≤ L2 → 0 ≤ cfg.vePeak → 0 ≤ cfg.boostPsi → 0 ≤ cfg.displacementL →
      V41.finalTorqueAt { cfg with pistonSpeedLimit := L1 } rpmRange rpm ≤
        V41.finalTorqueAt { cfg with pistonSpeedLimit := L2 } rpmRange rpm) :=
  ⟨fun p rpm L1 L2 _ h12 hcy hst hve => v3_torque_mono p rpm L1 L2 h12 hcy hst hve,
   fun cfg rpmRange rpm L1 L2 h1 h12 hve hb => mf_torque_mono cfg rpmRange rpm L1 L2 h1 h12 hve hb,
   fun cfg rpmRange rpm L1 L2 h1 h12 hve hb hd =>
     v41_torque_mono cfg rpmRange rpm L1 L2 h1 h12 hve hb hd⟩

theorem claim_C8_witness :
    ModeFirst.finalTorqueAt
        { (⟨.gasNa, 4, 87, 99, 2.4, 10.5, 7000, 250, 95, 3, 25, 0, .na, .dohc, 4⟩ :
          ModeFirst.Config) with pistonSpeedLimit := 20 }
        (createRpmRange 7000 250 1000) 6000 ≤
      ModeFirst.finalTorqueAt
        { (⟨.gasNa, 4, 87, 99, 2.4, 10.5, 7000, 250, 95, 3, 25, 0, .na, .dohc, 4⟩ :
          ModeFirst.Config) with pistonSpeedLimit := 25 }
        (createRpmRange 7000 250 1000) 6000 :=
  claim_C8.2.1 ⟨.gasNa, 4, 87, 99, 2.4, 10.5, 7000, 250, 95, 3, 25, 0, .na, .dohc, 4⟩
    (createRpmRange 7000 250 1000) 6000 20 25 (by norm_num) (by norm_num) (by norm_num)
    (by norm_num)

/-! ### C6 — knock-ceiling boundary -/

theorem getKnockFactor_at_most (cr pr L : ℝ) (h : cr * pr ≤ L) :
    V3.getKnockFactor cr pr L = 1 := by
  unfold V3.getKnockFactor
  rw [if_pos h]

theorem getKnockFactor_above (cr pr L : ℝ) (hL : 0 < L) (h : L < cr * pr) :
    V3.getKnockFactor cr pr L = clamp ((L / (cr * pr)) ^ (0.9 : ℝ)) 0.5 1 ∧
      V3.getKnockFactor cr pr L < 1 ∧ 0.5 ≤ V3.getKnockFactor cr pr L := by
  have hcr : 0 < cr * pr := lt_trans hL h
  have hr0 : 0 ≤ L / (cr * pr) := le_of_lt (div_pos hL hcr)
  have hr1 : L / (cr * pr) < 1 := (div_lt_one hcr).mpr h
  have hpow : (L / (cr * pr)) ^ (0.9 : ℝ) < 1 := Real.rpow_lt_one hr0 hr1 (by norm_num)
  have heq : V3.getKnockFactor cr pr L = clamp ((L / (cr * pr)) ^ (0.9 : ℝ)) 0.5 1 := by
    unfold V3.getKnockFactor
    rw [if_neg (not_le.mpr h)]
  refine ⟨heq, ?_, ?_⟩
  · rw [heq]
    unfold clamp
    exact lt_of_le_of_lt (min_le_left _ _) (max_lt hpow (by norm_num))
  · rw [heq]
    exact lo_le_clamp _ _ _ (by norm_num)

/-- **C6** (confirmed).  For every fuel's knock ceiling `L` (18, 28 or 32):
the v3 knock factor is exactly 1 whenever `compressionRatio × pressureRatio
≤ L` (in particular at equality), and strictly above the ceiling it equals
`clamp((L/crpr)^0.9, 0.5, 1)` — strictly below 1 and floored at the
positive value 0.5. -/
theorem claim_C6 (fuel : FuelType) (ind : InductionType) (cr pr : ℝ) :
    (cr * pr ≤ (V3.getFuelProps fuel ind).knockLimit →
      V3.getKnockFactor cr pr (V3.getFuelProps fuel ind).knockLimit = 1) ∧
    ((V3.getFuelProps fuel ind).knockLimit < cr * pr →
      V3.getKnockFactor cr pr (V3.getFuelProps fuel ind).knockLimit =
        clamp (((V3.getFuelProps fuel ind).knockLimit / (cr * pr)) ^ (0.9 : ℝ)) 0.5 1 ∧
      V3.getKnockFactor cr pr (V3.getFuelProps fuel ind).knockLimit < 1 ∧
      0.5 ≤ V3.getKnockFactor cr pr (V3.getFuelProps fuel ind).knockLimit) := by
  have hL : 0 < (V3.getFuelProps fuel ind).knockLimit := by
    cases fuel <;> norm_num [V3.getFuelProps]
  exact ⟨getKnockFactor_at_most cr pr _, getKnockFactor_above cr pr _ hL⟩

theorem claim_C6_witness :
    V3.getKnockFactor 9 2 ((V3.getFuelProps .gasoline .na).knockLimit) = 1 ∧
      (9 : ℝ) * 2 = (V3.getFuelProps .gasoline .na).knockLimit :=
  ⟨(claim_C6 .gasoline .na 9 2).1 (by norm_num [V3.getFuelProps]),
   by norm_num [V3.getFuelProps]⟩

/-! ### C7 — boost pass-through for diesel and methanol -/

/-- **C7** (amended).  The requested boost passes through unmodified for
diesel in both `script.js` resolvers and for methanol in the mode-first
resolver (any induction) and in the V4.1 resolver when naturally aspirated;
but the V4.1 resolver scales boosted methanol by 1.1. -/
theorem claim_C7 (ind : InductionType) (cr b : ℝ) :
    (ModeFirst.getEffectiveBoostAndCompFactor .diesel ind cr b).effBoostPsi = b ∧
    (ModeFirst.getEffectiveBoostAndCompFactor .methanol ind cr b).effBoostPsi = b ∧
    (V41.getCompressionBoostScaling .diesel ind cr b).effBoostPsi = b ∧
    (V41.getCompressionBoostScaling .methanol .na cr b).effBoostPsi = b ∧
    (V41.getCompressionBoostScaling .methanol .turbo cr b).effBoostPsi = b * 1.1 ∧
    (V41.getCompressionBoostScaling .methanol .supercharger cr b).effBoostPsi = b * 1.1 := by
  refine ⟨rfl, rfl, rfl, ?_, ?_, ?_⟩
  · simp [V41.getCompressionBoostScaling]
  · simp only [V41.getCompressionBoostScaling]
    rw [if_neg (by decide : ¬ (InductionType.turbo = InductionType.na))]
  · simp only [V41.getCompressionBoostScaling]
    rw [if_neg (by decide : ¬ (InductionType.supercharger = InductionType.na))]

/-- **C7 counterexample**: boosted methanol in the V4.1 resolver does not
pass the requested 10 psi through — it returns 11 psi (`boostPsi * 1.1`). -/
theorem claim_C7_counterexample :
    (V41.getCompressionBoostScaling .methanol .turbo 13.5 10).effBoostPsi = 11 ∧
      (11 : ℝ) ≠ 10 := by
  constructor
  · simp only [V41.getCompressionBoostScaling]
    rw [if_neg (by decide : ¬ (InductionType.turbo = InductionType.na))]
    norm_num
  · norm_num

/-! ### C9 — input validation -/

theorem v3_handle_rejects (f : V3.Form)
    (h : ¬ truthyN f.cylinders ∨ ¬ truthyQ f.boreMm ∨ ¬ truthyQ f.strokeMm ∨
      ¬ truthyN f.redlineRpm ∨ ¬ truthyN f.rpmStep ∨
      f.redlineRpm.getD 0 < 3000 ∨ f.redlineRpm.getD 0 ≤ f.rpmStep.getD 0) :
    isErr (V3.handleSubmit f) = true := by
  unfold V3.handleSubmit
  by_cases h1 : (truthyN f.cylinders : Prop) ∧ (truthyQ f.boreMm : Prop) ∧
      (truthyQ f.strokeMm : Prop) ∧ (truthyN f.redlineRpm : Prop) ∧
      (truthyN f.rpmStep : Prop) ∧ (truthyQ f.compressionRatio : Prop)
  · rw [if_neg (not_not_intro h1)]
    rcases h with hbad | hbad | hbad | hbad | hbad | hbad | hbad
    · exact absurd h1.1 hbad
    · exact absurd h1.2.1 hbad
    · exact absurd h1.2.2.1 hbad
    · exact absurd h1.2.2.2.1 hbad
    · exact absurd h1.2.2.2.2.1 hbad
    · rw [if_pos hbad]
      rfl
    · by_cases h2 : f.redlineRpm.getD 0 < 3000
      · rw [if_pos h2]
        rfl
      · rw [if_neg h2, if_pos hbad]
        rfl
  · rw [if_pos h1]
    rfl

theorem v2_handle_rejects (f : V2.Form)
    (h : ¬ truthyN f.cylinders ∨ ¬ truthyQ f.boreMm ∨ ¬ truthyQ f.strokeMm ∨
      ¬ truthyN f.redlineRpm ∨ ¬ truthyN f.rpmStep ∨
      f.redlineRpm.getD 0 < 3000 ∨ f.redlineRpm.getD 0 ≤ f.rpmStep.getD 0) :
    isErr (V2.handleSubmit f) = true := by
  unfold V2.handleSubmit
  by_cases h1 : (truthyN f.cylinders : Prop) ∧ (truthyQ f.boreMm : Prop) ∧
      (truthyQ f.strokeMm : Prop) ∧ (truthyN f.redlineRpm : Prop) ∧
      (truthyN f.rpmStep : Prop) ∧ 0 < f.rpmStep.getD 0
  · rw [if_neg (not_not_intro h1)]
    rcases h with hbad | hbad | hbad | hbad | hbad | hbad | hbad
    · exact absurd h1.1 hbad
    · exact absurd h1.2.1 hbad
    · exact absurd h1.2.2.1 hbad
    · exact absurd h1.2.2.2.1 hbad
    · exact absurd h1.2.2.2.2.1 hbad
    · rw [if_pos hbad]
      rfl
    · by_cases h2 : f.redlineRpm.getD 0 < 3000
      · rw [if_pos h2]
        rfl
      · rw [if_neg h2, if_pos hbad]
        rfl
  · rw [if_pos h1]
    rfl

/-- **C9** (amended).  The v3 and v2 form handlers reject — with a warning
and without invoking the simulation — every submission with a missing/zero
cylinder count, bore, stroke, redline or step, a redline below 3000 rpm, or
a step at least the redline.  (The mode-first handler instead substitutes
defaults for missing fields and only rejects a non-positive resolved
displacement; see the counterexample.) -/
theorem claim_C9 :
    (∀ f : V3.Form,
      (¬ truthyN f.cylinders ∨ ¬ truthyQ f.boreMm ∨ ¬ truthyQ f.strokeMm ∨
        ¬ truthyN f.redlineRpm ∨ ¬ truthyN f.rpmStep ∨
        f.redlineRpm.getD 0 < 3000 ∨ f.redlineRpm.getD 0 ≤ f.rpmStep.getD 0) →
      isErr (V3.handleSubmit f) = true) ∧
    (∀ f : V2.Form,
      (¬ truthyN f.cylinders ∨ ¬ truthyQ f.boreMm ∨ ¬ truthyQ f.strokeMm ∨
        ¬ truthyN f.redlineRpm ∨ ¬ truthyN f.rpmStep ∨
        f.redlineRpm.getD 0 < 3000 ∨ f.redlineRpm.getD 0 ≤ f.rpmStep.getD 0) →
      isErr (V2.handleSubmit f) = true) :=
  ⟨v3_handle_rejects, v2_handle_rejects⟩

/-- **C9 counterexample**: the mode-first `onFormSubmit` does **not** reject a
form whose redline field is missing — `readConfigFromForm` substitutes the
default 7000 rpm and the simulation runs, returning a result derived from
that default (the displacement field holds 2.4 L, so the only check in
`onFormSubmit` passes). -/
theorem claim_C9_counterexample :
    (ModeFirst.readConfigFromForm
        ⟨.gasNa, some 4, some 87, some 99, some (12 / 5), some (21 / 2), none, some 250,
          some 95, some 3, some 25, some 0, .na, .dohc, some 4⟩).redline = 7000 ∧
      ModeFirst.onFormSubmit
          ⟨.gasNa, some 4, some 87, some 99, some (12 / 5), some (21 / 2), none, some 250,
            some 95, some 3, some 25, some 0, .na, .dohc, some 4⟩ =
        .ok (ModeFirst.simulateEngine (ModeFirst.readConfigFromForm
          ⟨.gasNa, some 4, some 87, some 99, some (12 / 5), some (21 / 2), none, some 250,
            some 95, some 3, some 25, some 0, .na, .dohc, some 4⟩)) := by
  constructor
  · rfl
  · have hd : (ModeFirst.readConfigFromForm
        ⟨.gasNa, some 4, some 87, some 99, some (12 / 5), some (21 / 2), none, some 250,
          some 95, some 3, some 25, some 0, .na, .dohc, some 4⟩).displacementL =
        ((12 / 5 : ℚ) : ℝ) := by
      show (if (((12 / 5 : ℚ) : ℝ)) = 0 then _ else (((12 / 5 : ℚ) : ℝ))) = ((12 / 5 : ℚ) : ℝ)
      rw [if_neg (by norm_num)]
    have hng : ¬ ((ModeFirst.readConfigFromForm
        ⟨.gasNa, some 4, some 87, some 99, some (12 / 5), some (21 / 2), none, some 250,
          some 95, some 3, some 25, some 0, .na, .dohc, some 4⟩).displacementL ≤ 0) := by
      rw [hd]
      norm_num
    unfold ModeFirst.onFormSubmit
    rw [if_neg hng]

theorem claim_C9_witness :
    isErr (V3.handleSubmit
      ⟨some 4, some 87, some 99, some 2000, some 250, some 95, some 3, some 25, .gasoline,
        .na, some 0, some 11, some 4, .dohc⟩) = true :=
  claim_C9.1
    ⟨some 4, some 87, some 99, some 2000, some 250, some 95, some 3, some 25, .gasoline,
      .na, some 0, some 11, some 4, .dohc⟩
    (Or.inr (Or.inr (Or.inr (Or.inr (Or.inr (Or.inl (by decide)))))))

end

end EngineFun
